import Mathlib

/-! Verification development for the Hugoland game-state engine
(the `useGameState` hook of the repository).

Embedding conventions:
* JS numbers are modelled as `Int` (currencies, stats, counters) or as `ℚ`
  (values produced by non-integral arithmetic: streak multipliers, hours,
  millisecond timestamps); `Math.floor` becomes `Int.floor` on `ℚ`.
  Arithmetic idealised as exact rational arithmetic.
* `Math.max(0, n - 1)` on natural-number counters becomes `Nat` subtraction.
* Every call to `Math.random()` and to the external content generators
  (`generateWeapon`, `generateArmor`, `generateEnemy`, `generateRelicItem`,
  `getChestRarityWeights` — all implemented outside this repository, in
  `utils/gameUtils`) is passed in explicitly as an oracle argument, so every
  transition is a pure function of `(state, input, oracle)`.
* The source mutates one shared `GameState` object; the equipped
  `currentWeapon` / `currentArmor` fields alias objects stored in the owning
  `inventory.weapons` / `inventory.armor` arrays.  We model items as values
  and mirror the aliasing by applying the same field update to the list
  entry having the same `id` whenever the equipped object is mutated.
* Combat-log strings are modelled as a list of tagged `LogEvent` values
  carrying the numeric payloads that the source interpolates into the text.
-/

namespace Hugoland

inductive Rarity
  | common | rare | epic | legendary | mythical
deriving DecidableEq, Repr

structure Weapon where
  id : Nat
  name : String
  rarity : Rarity
  baseAtk : Int
  level : Nat
  durability : Nat
  maxDurability : Nat
  upgradeCost : Int
  sellPrice : Int
deriving DecidableEq, Repr

structure Armor where
  id : Nat
  name : String
  rarity : Rarity
  baseDef : Int
  level : Nat
  durability : Nat
  maxDurability : Nat
  upgradeCost : Int
  sellPrice : Int
deriving DecidableEq, Repr

inductive RelicKind
  | weapon | armor
deriving DecidableEq, Repr

structure RelicItem where
  id : Nat
  name : String
  kind : RelicKind
  level : Nat
  baseAtk : Option Int
  baseDef : Option Int
  cost : Int
  upgradeCost : Int
deriving DecidableEq, Repr

structure PlayerStats where
  hp : Int
  maxHp : Int
  atk : Int
  defense : Int
  baseAtk : Int
  baseDef : Int
  baseHp : Int
deriving DecidableEq, Repr

structure Inventory where
  weapons : List Weapon
  armor : List Armor
  relics : List RelicItem
  currentWeapon : Option Weapon
  currentArmor : Option Armor
  equippedRelics : List RelicItem
deriving DecidableEq, Repr

structure Enemy where
  name : String
  hp : Int
  atk : Int
deriving DecidableEq, Repr

structure KnowledgeStreak where
  current : Nat
  best : Nat
  multiplier : ℚ
deriving DecidableEq, Repr

inductive GameModeKind
  | normal | blitz | bloodlust | survival
deriving DecidableEq, Repr

structure GameMode where
  current : GameModeKind
  survivalLives : Int
  maxSurvivalLives : Int
deriving DecidableEq, Repr

structure CatStat where
  correct : Nat
  total : Nat
deriving DecidableEq, Repr

structure RarityStats where
  common : Nat
  rare : Nat
  epic : Nat
  legendary : Nat
  mythical : Nat
deriving DecidableEq, Repr

structure CollectionBook where
  weapons : List String
  armor : List String
  totalWeaponsFound : Nat
  totalArmorFound : Nat
  rarityStats : RarityStats
deriving DecidableEq, Repr

structure Statistics where
  totalQuestionsAnswered : Nat
  correctAnswers : Nat
  accuracyByCategory : List (String × CatStat)
  zonesReached : Nat
  itemsCollected : Nat
  coinsEarned : Int
  gemsEarned : Int
  shinyGemsEarned : Int
  chestsOpened : Nat
  totalDeaths : Nat
  totalVictories : Nat
  totalDamageDealt : Int
  totalDamageTaken : Int
  itemsUpgraded : Nat
  itemsSold : Nat
  revivals : Nat
deriving DecidableEq, Repr

structure Mining where
  totalGemsMined : Int
  totalShinyGemsMined : Int
deriving DecidableEq, Repr

structure YojefMarket where
  items : List RelicItem
  lastRefresh : ℚ
  nextRefresh : ℚ
deriving DecidableEq, Repr

structure DailyReward where
  day : Nat
  coins : Int
  gems : Int
  special : Option String
  claimed : Bool
  claimDate : Option ℚ
deriving DecidableEq, Repr

structure DailyRewards where
  lastClaimDate : Option ℚ
  currentStreak : Nat
  maxStreak : Nat
  availableReward : Option DailyReward
  rewardHistory : List DailyReward
deriving DecidableEq, Repr

structure Progression where
  level : Nat
  experience : Int
  experienceToNext : Int
  skillPoints : Nat
  unlockedSkills : List String
  prestigeLevel : Nat
  prestigePoints : Int
deriving DecidableEq, Repr

structure OfflineProgress where
  lastSaveTime : ℚ
  offlineCoins : Int
  offlineGems : Int
  offlineTime : ℚ
  maxOfflineHours : ℚ
deriving DecidableEq, Repr

structure GardenOfGrowth where
  isPlanted : Bool
  plantedAt : Option ℚ
  lastWatered : Option ℚ
  waterHoursRemaining : ℚ
  growthCm : ℚ
  totalGrowthBonus : ℚ
  seedCost : Int
  waterCost : Int
  maxGrowthCm : ℚ
deriving DecidableEq, Repr

inductive MenuSkillType
  | coinVacuum | treasurer | xpSurge | luckGem | enchanter | timeWarp
  | goldenTouch | knowledgeBoost | durabilityMaster | relicFinder
  | statAmplifier | questionMaster | gemMagnet | streakGuardian
  | revivalBlessing | zoneSkipper | itemDuplicator | researchAccelerator
  | gardenBooster | marketRefreshSkill | coinMultiplier | gemMultiplier
  | xpMultiplier | damageBoost | defenseBoost | healthBoost
  | speedBoost | luckBoost | magicShield | autoHeal
deriving DecidableEq, Repr

structure MenuSkill where
  mtype : MenuSkillType
  activatedAt : ℚ
  expiresAt : ℚ
deriving DecidableEq, Repr

structure Skills where
  activeMenuSkill : Option MenuSkill
  lastRollTime : Option ℚ
deriving DecidableEq, Repr

inductive AdvSkillType
  | risker | lightningChain | skipCard | metalShield | truthLies | ramp
  | dodge | berserker | vampiric | phoenix | timeSlow | criticalStrike
  | shieldWall | poisonBlade | arcaneShield | battleFrenzy
  | elementalMastery | shadowStep | healingAura | doubleStrike
  | manaShield | berserkRage | divineProtection | stormCall | bloodPact
  | frostArmor | fireball
deriving DecidableEq, Repr

structure SkillEffects where
  skipCardUsed : Bool
  metalShieldUsed : Bool
  dodgeUsed : Bool
  truthLiesActive : Bool
  lightningChainActive : Bool
  rampActive : Bool
  berserkerActive : Bool
  vampiricActive : Bool
  phoenixUsed : Bool
  timeSlowActive : Bool
  criticalStrikeActive : Bool
  shieldWallActive : Bool
  poisonBladeActive : Bool
  arcaneShieldActive : Bool
  battleFrenzyActive : Bool
  elementalMasteryActive : Bool
  shadowStepUsed : Bool
  healingAuraActive : Bool
  doubleStrikeActive : Bool
  manaShieldActive : Bool
  berserkRageActive : Bool
  divineProtectionUsed : Bool
  stormCallActive : Bool
  bloodPactActive : Bool
  frostArmorActive : Bool
  fireballActive : Bool
deriving DecidableEq, Repr

structure AdventureSkills where
  selectedSkill : Option AdvSkillType
  availableSkills : List AdvSkillType
  showSelectionModal : Bool
  skillEffects : SkillEffects
deriving DecidableEq, Repr

structure Cheats where
  infiniteCoins : Bool
  infiniteGems : Bool
  obtainAnyItem : Bool
deriving DecidableEq, Repr

/-- Combat-log entries, tagged with the numeric payloads the source
interpolates into the message strings. -/
inductive LogEvent
  | encounter (zone : Nat)
  | critical
  | doubleStrikeMsg
  | playerHit (dmg : Int)
  | vampiricHeal (heal : Int)
  | levelUp (level : Nat)
  | victoryMsg (coins gems xp : Int)
  | dropWeapon (nm : String)
  | dropArmor (nm : String)
  | enemyHit (dmg : Int)
  | metalShieldBlock
  | dodgeMsg
  | phoenixRevive
  | divineSave
  | revived
  | defeated
  | gameOver
  | healingAuraMsg (heal : Int)
deriving DecidableEq, Repr

structure GameState where
  coins : Int
  gems : Int
  shinyGems : Int
  zone : Nat
  playerStats : PlayerStats
  inventory : Inventory
  currentEnemy : Option Enemy
  inCombat : Bool
  combatLog : List LogEvent
  knowledgeStreak : KnowledgeStreak
  gameMode : GameMode
  statistics : Statistics
  collectionBook : CollectionBook
  cheats : Cheats
  mining : Mining
  yojefMarket : YojefMarket
  dailyRewards : DailyRewards
  progression : Progression
  offlineProgress : OfflineProgress
  gardenOfGrowth : GardenOfGrowth
  hasUsedRevival : Bool
  skills : Skills
  adventureSkills : AdventureSkills
  researchLevel : Nat
deriving DecidableEq, Repr

/-! Attribute resolver: the stat-recalculation formula that the source
repeats verbatim in `equipWeapon`, `equipArmor`, `upgradeWeapon`,
`upgradeArmor`, `equipRelic`, `unequipRelic`, `upgradeRelic` and in the
durability section of `attack`. -/

/-- Raw weapon power: `weapon.baseAtk + (weapon.level - 1) * 10`. -/
def weaponAtkOf (w : Weapon) : Int := w.baseAtk + ((w.level : Int) - 1) * 10

/-- Raw armor power: `armor.baseDef + (armor.level - 1) * 5`. -/
def armorDefOf (a : Armor) : Int := a.baseDef + ((a.level : Int) - 1) * 5

/-- Durability-scaled weapon power:
`Math.floor(weaponAtk * (durability / maxDurability))`. -/
def effectiveWeaponAtk (w : Weapon) : Int :=
  Int.floor ((weaponAtkOf w : ℚ) * ((w.durability : ℚ) / (w.maxDurability : ℚ)))

/-- Durability-scaled armor power. -/
def effectiveArmorDef (a : Armor) : Int :=
  Int.floor ((armorDefOf a : ℚ) * ((a.durability : ℚ) / (a.maxDurability : ℚ)))

/-- Offense bonus of the equipped relics of weapon kind:
`reduce((t, relic) => t + relic.baseAtk + (relic.level - 1) * 22, 0)`.
The source reads `relic.baseAtk!` (non-null assertion); we read `getD 0`. -/
def relicAtkBonus (relics : List RelicItem) : Int :=
  (relics.filter (fun r => r.kind = RelicKind.weapon)).foldl
    (fun total r => total + (r.baseAtk.getD 0 + ((r.level : Int) - 1) * 22)) 0

/-- Defense bonus of the equipped relics of armor kind (per-level bonus 15). -/
def relicDefBonus (relics : List RelicItem) : Int :=
  (relics.filter (fun r => r.kind = RelicKind.armor)).foldl
    (fun total r => total + (r.baseDef.getD 0 + ((r.level : Int) - 1) * 15)) 0

/-- Resolved attack:
`Math.floor((baseAtk + effectiveWeaponAtk + relicAtkBonus) * gardenBonus)`
with `gardenBonus = 1 + totalGrowthBonus / 100`; an absent weapon
contributes 0. -/
def calcAtk (base : Int) (weapon : Option Weapon) (relics : List RelicItem)
    (growthBonus : ℚ) : Int :=
  Int.floor
    (((base + (match weapon with | some w => effectiveWeaponAtk w | none => 0)
        + relicAtkBonus relics : Int) : ℚ) * (1 + growthBonus / 100))

/-- Resolved defense, mirroring `calcAtk`. -/
def calcDef (base : Int) (armor : Option Armor) (relics : List RelicItem)
    (growthBonus : ℚ) : Int :=
  Int.floor
    (((base + (match armor with | some a => effectiveArmorDef a | none => 0)
        + relicDefBonus relics : Int) : ℚ) * (1 + growthBonus / 100))

/-- Decrement the durability of the list entry with the given id
(`Math.max(0, durability - 1)`, i.e. truncated subtraction); this mirrors
the aliasing between the mutated equipped object and the owning array. -/
def decDurabilityW (idTarget : Nat) (ws : List Weapon) : List Weapon :=
  ws.map (fun x => if x.id = idTarget then { x with durability := x.durability - 1 } else x)

/-- Armor version of `decDurabilityW`. -/
def decDurabilityA (idTarget : Nat) (arms : List Armor) : List Armor :=
  arms.map (fun x => if x.id = idTarget then { x with durability := x.durability - 1 } else x)

/-- `equipWeapon`: reduce the durability of the currently equipped weapon
(if any), install the new weapon, and recompute the resolved attack. -/
def equipWeapon (w : Weapon) (s : GameState) : GameState :=
  let inv := s.inventory
  let inv1 :=
    match inv.currentWeapon with
    | some old => { inv with weapons := decDurabilityW old.id inv.weapons }
    | none => inv
  let inv2 := { inv1 with currentWeapon := some w }
  let atk1 := calcAtk s.playerStats.baseAtk (some w) inv2.equippedRelics
    s.gardenOfGrowth.totalGrowthBonus
  { s with inventory := inv2, playerStats := { s.playerStats with atk := atk1 } }

/-- `equipArmor`, mirroring `equipWeapon`. -/
def equipArmor (a : Armor) (s : GameState) : GameState :=
  let inv := s.inventory
  let inv1 :=
    match inv.currentArmor with
    | some old => { inv with armor := decDurabilityA old.id inv.armor }
    | none => inv
  let inv2 := { inv1 with currentArmor := some a }
  let def1 := calcDef s.playerStats.baseDef (some a) inv2.equippedRelics
    s.gardenOfGrowth.totalGrowthBonus
  { s with inventory := inv2, playerStats := { s.playerStats with defense := def1 } }

/-- Modelled from the spec (§4.1, for the refinement claim C3):
`effectiveWeaponPower = floor(weaponBasePower(level) * durability/maxDurability)`. -/
def specEffectivePower (basePower : Int) (durability maxDurability : Nat) : Int :=
  Int.floor ((basePower : ℚ) * ((durability : ℚ) / (maxDurability : ℚ)))

/-- Modelled from the spec (§4.1, for the refinement claim C3):
`floor((baseStat + effectivePower + relicBonus) * environmentMultiplier)`
with `environmentMultiplier = 1 + growthBonus/100`. -/
def specResolvedStat (baseStat effPower relicBonus : Int) (growthBonus : ℚ) : Int :=
  Int.floor (((baseStat + effPower + relicBonus : Int) : ℚ) * (1 + growthBonus / 100))

/-! Level-up machinery: the `while (experience >= experienceToNext)` loop of
the victory branch of `attack` (and of `setExperience`). -/

/-- Experience threshold `Math.floor(100 * Math.pow(1.2, level - 1))`,
computed exactly: truncated natural division by `5 ^ (level - 1)` equals
the floor of the rational value `100 * (6/5) ^ (level - 1)`. -/
def expThreshold (level : Nat) : Int :=
  ((100 * 6 ^ (level - 1) / 5 ^ (level - 1) : Nat) : Int)

/-- Fuel-indexed unfolding of the level-up loop, entered after the first
iteration (from which point the stored threshold always equals
`expThreshold level`).  Returns `(experience, level, skillPoints,
iterations)`.  `levelLoopFrom` supplies enough fuel for the fuel-out branch
to be unreachable. -/
def levelLoopGo : Nat → Int → Nat → Nat → Int × Nat × Nat × Nat
  | 0, e, level, sp => (e, level, sp, 0)
  | fuel + 1, e, level, sp =>
    if expThreshold level ≤ e then
      let r := levelLoopGo fuel (e - expThreshold level) (level + 1) (sp + 1)
      (r.1, r.2.1, r.2.2.1, r.2.2.2 + 1)
    else (e, level, sp, 0)

/-- Resume the level-up loop with threshold `expThreshold level`; each
iteration removes at least 100 experience, so `e.toNat + 1` fuel always
suffices. -/
def levelLoopFrom (e : Int) (level sp : Nat) : Int × Nat × Nat × Nat :=
  levelLoopGo (e.toNat + 1) e level sp

/-- The level-up `while` loop:
`while (exp >= toNext) exp -= toNext; level += 1; sp += 1; toNext = floor(100 * 1.2 ^ (level-1))`.
The first comparison uses the stored `experienceToNext`; returns
`(experience, experienceToNext, level, skillPoints, iterations)`. -/
def runLevelLoop (e toNext : Int) (level sp : Nat) : Int × Int × Nat × Nat × Nat :=
  if toNext ≤ e then
    let r := levelLoopFrom (e - toNext) (level + 1) (sp + 1)
    (r.1, expThreshold r.2.1, r.2.1, r.2.2.1, r.2.2.2 + 1)
  else (e, toNext, level, sp, 0)

theorem expThreshold_ge (level : Nat) : 100 ≤ expThreshold level := by
  unfold expThreshold
  have h5 : 0 < 5 ^ (level - 1) := Nat.pos_pow_of_pos _ (by norm_num)
  have h : (100 : Nat) ≤ 100 * 6 ^ (level - 1) / 5 ^ (level - 1) := by
    rw [Nat.le_div_iff_mul_le h5]
    exact Nat.mul_le_mul le_rfl (Nat.pow_le_pow_left (by norm_num) _)
  exact_mod_cast h

theorem levelLoopGo_exp_lt (fuel : Nat) :
    ∀ (e : Int) (level sp : Nat), e < 100 * (fuel : Int) →
      (levelLoopGo fuel e level sp).1 < expThreshold (levelLoopGo fuel e level sp).2.1 := by
  induction fuel with
  | zero =>
    intro e level sp h
    simp only [levelLoopGo]
    have h100 := expThreshold_ge level
    simp only [Nat.cast_zero, mul_zero] at h
    linarith
  | succ f ih =>
    intro e level sp h
    simp only [levelLoopGo]
    split_ifs with hle
    · exact ih (e - expThreshold level) (level + 1) (sp + 1)
        (by have := expThreshold_ge level; push_cast at h ⊢; linarith)
    · simpa using lt_of_not_le hle

theorem levelLoopGo_level (fuel : Nat) :
    ∀ (e : Int) (level sp : Nat),
      (levelLoopGo fuel e level sp).2.1 = level + (levelLoopGo fuel e level sp).2.2.2 := by
  induction fuel with
  | zero => intro e level sp; simp [levelLoopGo]
  | succ f ih =>
    intro e level sp
    simp only [levelLoopGo]
    split_ifs with hle
    · have h := ih (e - expThreshold level) (level + 1) (sp + 1)
      simp only [] at h ⊢
      omega
    · simp

/-- Postcondition of the level-up loop: the final experience is strictly
below the final threshold. -/
theorem runLevelLoop_exp_lt (e toNext : Int) (level sp : Nat) :
    (runLevelLoop e toNext level sp).1 < (runLevelLoop e toNext level sp).2.1 := by
  unfold runLevelLoop
  split_ifs with h
  · exact levelLoopGo_exp_lt _ (e - toNext) (level + 1) (sp + 1) (by omega)
  · simpa using lt_of_not_le h

/-- The loop raises the level by exactly its iteration count. -/
theorem runLevelLoop_level (e toNext : Int) (level sp : Nat) :
    (runLevelLoop e toNext level sp).2.2.1 = level + (runLevelLoop e toNext level sp).2.2.2.2 := by
  unfold runLevelLoop
  split_ifs with h
  · have := levelLoopGo_level ((e - toNext).toNat + 1) (e - toNext) (level + 1) (sp + 1)
    simp only [levelLoopFrom]
    omega
  · simp

/-! The `attack(hit, category)` transition. -/

/-- Fresh per-category accuracy record. -/
def emptyCatStat : CatStat := ⟨0, 0⟩

/-- Per-category accuracy update: initialise the entry when absent, then
increment `total`, and `correct` on a correct answer. -/
def bumpCategory (hit : Bool) (cat : String) (m : List (String × CatStat)) :
    List (String × CatStat) :=
  let m1 := if m.any (fun p => p.1 = cat) then m else m ++ [(cat, emptyCatStat)]
  m1.map (fun p =>
    if p.1 = cat then
      (p.1, { correct := p.2.correct + (if hit then 1 else 0), total := p.2.total + 1 })
    else p)

/-- The all-false skill-effect record the source resets to. -/
def resetSkillEffects : SkillEffects :=
  ⟨false, false, false, false, false, false, false, false, false, false,
   false, false, false, false, false, false, false, false, false, false,
   false, false, false, false, false, false⟩

/-- The cleared adventure-skills record the source resets to at the end of
an encounter (no selected skill, no offer, modal closed, effects reset). -/
def resetAdventureSkills : AdventureSkills :=
  ⟨none, [], false, resetSkillEffects⟩

/-- Oracle for the random draws and externally generated drop items of one
`attack` call. -/
structure AttackRng where
  critRoll : ℚ
  dropRoll : ℚ
  dropTypeRoll : ℚ
  dropRareRoll : ℚ
  dropWeapon : Weapon
  dropArmor : Armor
deriving DecidableEq, Repr

/-- Player damage on a correct answer: resolved attack through the selected
adventure-skill multiplier, then the active menu-skill multiplier; also
returns the log entries pushed while computing it. -/
def correctDamage (s : GameState) (rng : AttackRng) : Int × List LogEvent :=
  let d0 := s.playerStats.atk
  let fx := s.adventureSkills.skillEffects
  let step1 : Int × List LogEvent :=
    match s.adventureSkills.selectedSkill with
    | some AdvSkillType.lightningChain =>
        (if fx.lightningChainActive then d0 * 2 else d0, [])
    | some AdvSkillType.berserker => (if fx.berserkerActive then d0 * 3 else d0, [])
    | some AdvSkillType.criticalStrike =>
        if fx.criticalStrikeActive ∧ rng.critRoll < (1/4 : ℚ) then (d0 * 4, [LogEvent.critical])
        else (d0, [])
    | some AdvSkillType.doubleStrike =>
        if fx.doubleStrikeActive then (d0 * 2, [LogEvent.doubleStrikeMsg]) else (d0, [])
    | some AdvSkillType.ramp =>
        (if fx.rampActive then
          Int.floor ((d0 : ℚ) * (1 + (s.knowledgeStreak.current : ℚ) * (1/4)))
         else d0, [])
    | _ => (d0, [])
  let d2 :=
    match s.skills.activeMenuSkill with
    | some ms =>
      match ms.mtype with
      | MenuSkillType.damageBoost => step1.1 * 2
      | _ => step1.1
    | none => step1.1
  (d2, step1.2)

/-- Enemy damage on a wrong answer together with the updated skill-effect
flags and log entries: `max(1, enemy.atk - defense)` through the selected
adventure skill (berserker doubling, shield-wall reduction, one-shot
metal-shield / dodge blocks) and the active menu skill. -/
def wrongDamageFx (enemy : Enemy) (s : GameState) : Int × SkillEffects × List LogEvent :=
  let d0 : Int := max 1 (enemy.atk - s.playerStats.defense)
  let fx := s.adventureSkills.skillEffects
  let step1 : Int × SkillEffects × List LogEvent :=
    match s.adventureSkills.selectedSkill with
    | some AdvSkillType.berserker => (if fx.berserkerActive then d0 * 2 else d0, fx, [])
    | some AdvSkillType.shieldWall =>
        (if fx.shieldWallActive then Int.floor ((d0 : ℚ) * (1/4)) else d0, fx, [])
    | some AdvSkillType.metalShield =>
        if fx.metalShieldUsed then (d0, fx, [])
        else (0, { fx with metalShieldUsed := true }, [LogEvent.metalShieldBlock])
    | some AdvSkillType.dodge =>
        if fx.dodgeUsed then (d0, fx, [])
        else (0, { fx with dodgeUsed := true }, [LogEvent.dodgeMsg])
    | _ => (d0, fx, [])
  let d2 :=
    match s.skills.activeMenuSkill with
    | some ms =>
      match ms.mtype with
      | MenuSkillType.defenseBoost => Int.floor ((step1.1 : ℚ) * (1/4))
      | MenuSkillType.magicShield => 0
      | _ => step1.1
    | none => step1.1
  (d2, step1.2)

/-- The final enemy damage of a wrong answer. -/
def wrongDamage (enemy : Enemy) (s : GameState) : Int := (wrongDamageFx enemy s).1

/-- The lethal-hit fallback chain of the wrong branch of `attack`
(`hp <= 0`): phoenix, then divine protection, then the free per-encounter
revival, then the defeat transition. -/
def applyFallback (s : GameState) : GameState :=
  if s.adventureSkills.selectedSkill = some AdvSkillType.phoenix
      ∧ s.adventureSkills.skillEffects.phoenixUsed = false then
    { s with
      playerStats := { s.playerStats with hp := Int.floor ((s.playerStats.maxHp : ℚ) * (1/2)) },
      adventureSkills := { s.adventureSkills with
        skillEffects := { s.adventureSkills.skillEffects with phoenixUsed := true } },
      combatLog := s.combatLog ++ [LogEvent.phoenixRevive] }
  else if s.adventureSkills.selectedSkill = some AdvSkillType.divineProtection
      ∧ s.adventureSkills.skillEffects.divineProtectionUsed = false then
    { s with
      playerStats := { s.playerStats with hp := 1 },
      adventureSkills := { s.adventureSkills with
        skillEffects := { s.adventureSkills.skillEffects with divineProtectionUsed := true } },
      combatLog := s.combatLog ++ [LogEvent.divineSave] }
  else if s.hasUsedRevival = false then
    { s with
      playerStats := { s.playerStats with hp := Int.floor ((s.playerStats.maxHp : ℚ) * (1/2)) },
      hasUsedRevival := true,
      statistics := { s.statistics with revivals := s.statistics.revivals + 1 },
      combatLog := s.combatLog ++ [LogEvent.revived] }
  else
    let s1 := { s with
      combatLog := s.combatLog ++ [LogEvent.defeated],
      statistics := { s.statistics with totalDeaths := s.statistics.totalDeaths + 1 } }
    let s2 : GameState :=
      if s1.gameMode.current = GameModeKind.survival then
        let lives := s1.gameMode.survivalLives - 1
        { s1 with
          gameMode := { s1.gameMode with survivalLives := lives },
          combatLog := s1.combatLog ++ (if lives ≤ 0 then [LogEvent.gameOver] else []) }
      else s1
    { s2 with
      inCombat := false,
      currentEnemy := none,
      playerStats := { s2.playerStats with hp := s2.playerStats.maxHp },
      adventureSkills := resetAdventureSkills }

/-- The state after a positive-damage enemy hit in the wrong branch of
`attack`: streak reset, one-shot block flags updated, HP reduced, damage
statistics and log appended. -/
def wrongHitState (enemy : Enemy) (s : GameState) : GameState :=
  let s1 := { s with knowledgeStreak := { s.knowledgeStreak with current := 0, multiplier := 1 } }
  let r := wrongDamageFx enemy s1
  let dmg := r.1
  let s2 := { s1 with
    adventureSkills := { s1.adventureSkills with skillEffects := r.2.1 },
    combatLog := s1.combatLog ++ r.2.2 }
  { s2 with
    playerStats := { s2.playerStats with hp := s2.playerStats.hp - dmg },
    statistics := { s2.statistics with totalDamageTaken := s2.statistics.totalDamageTaken + dmg },
    combatLog := s2.combatLog ++ [LogEvent.enemyHit dmg] }

/-- The wrong-answer branch of `attack`: streak reset, enemy damage, HP
subtraction and the fallback chain. -/
def attackOnWrong (enemy : Enemy) (s : GameState) : GameState :=
  let s1 := { s with knowledgeStreak := { s.knowledgeStreak with current := 0, multiplier := 1 } }
  let r := wrongDamageFx enemy s1
  let s2 := { s1 with
    adventureSkills := { s1.adventureSkills with skillEffects := r.2.1 },
    combatLog := s1.combatLog ++ r.2.2 }
  if 0 < r.1 then
    let s3 := wrongHitState enemy s
    if s3.playerStats.hp ≤ 0 then applyFallback s3 else s3
  else s2

/-- Record a weapon name in the collection book
(`collectionBook.weapons[name] = true; totalWeaponsFound += 1`). -/
def addWeaponName (nm : String) (cb : CollectionBook) : CollectionBook :=
  { cb with weapons := if nm ∈ cb.weapons then cb.weapons else cb.weapons ++ [nm],
            totalWeaponsFound := cb.totalWeaponsFound + 1 }

/-- Armor version of `addWeaponName`. -/
def addArmorName (nm : String) (cb : CollectionBook) : CollectionBook :=
  { cb with armor := if nm ∈ cb.armor then cb.armor else cb.armor ++ [nm],
            totalArmorFound := cb.totalArmorFound + 1 }

/-- `collectionBook.rarityStats[r] += 1`. -/
def bumpRarity (r : Rarity) (cb : CollectionBook) : CollectionBook :=
  { cb with rarityStats :=
      match r with
      | Rarity.common => { cb.rarityStats with common := cb.rarityStats.common + 1 }
      | Rarity.rare => { cb.rarityStats with rare := cb.rarityStats.rare + 1 }
      | Rarity.epic => { cb.rarityStats with epic := cb.rarityStats.epic + 1 }
      | Rarity.legendary => { cb.rarityStats with legendary := cb.rarityStats.legendary + 1 }
      | Rarity.mythical => { cb.rarityStats with mythical := cb.rarityStats.mythical + 1 } }

/-- Level-up log lines pushed by the loop, one per new level. -/
def levelUpLogs (fromLevel count : Nat) : List LogEvent :=
  (List.range count).map (fun i => LogEvent.levelUp (fromLevel + i + 1))

/-- The victory rewards `(coins, gems, xp)` of the victory branch of
`attack`: streak-multiplied bases `floor(base(zone) * streakMultiplier)`,
then game-mode multipliers, then menu-skill multipliers, then the
infinite-coins cheat bonus. -/
def victoryRewards (s : GameState) : Int × Int × Int :=
  let baseCoins : Int := 10 + (s.zone : Int) * 2
  let baseGems : Int := ((s.zone / 5 : Nat) : Int) + 1
  let baseXp : Int := 20 + (s.zone : Int) * 3
  let m := s.knowledgeStreak.multiplier
  let coins0 := Int.floor ((baseCoins : ℚ) * m)
  let gems0 := Int.floor ((baseGems : ℚ) * m)
  let xp0 := Int.floor ((baseXp : ℚ) * m)
  let mode1 : Int × Int × Int :=
    match s.gameMode.current with
    | GameModeKind.blitz =>
        (Int.floor ((coins0 : ℚ) * (5/4)), Int.floor ((gems0 : ℚ) * (11/10)), xp0)
    | GameModeKind.survival => (coins0 * 2, gems0 * 2, xp0 * 2)
    | _ => (coins0, gems0, xp0)
  let menu1 : Int × Int × Int :=
    match s.skills.activeMenuSkill with
    | some ms =>
      match ms.mtype with
      | MenuSkillType.coinMultiplier => (mode1.1 * 3, mode1.2.1, mode1.2.2)
      | MenuSkillType.goldenTouch => (mode1.1 * 3, mode1.2.1, mode1.2.2)
      | MenuSkillType.gemMultiplier => (mode1.1, mode1.2.1 * 3, mode1.2.2)
      | MenuSkillType.gemMagnet => (mode1.1, mode1.2.1 * 3, mode1.2.2)
      | MenuSkillType.xpMultiplier => (mode1.1, mode1.2.1, mode1.2.2 * 4)
      | MenuSkillType.xpSurge => (mode1.1, mode1.2.1, mode1.2.2 * 4)
      | _ => mode1
    | none => mode1
  let coinsF := if s.cheats.infiniteCoins then menu1.1 + 1000 else menu1.1
  (coinsF, menu1.2.1, menu1.2.2)

set_option maxHeartbeats 1600000 in
/-- The state update of the victory branch, applying `victoryRewards`, the
level-up loop, an optional item drop, zone advance and the end-of-combat
cleanup. -/
def victoryTransition (rng : AttackRng) (s : GameState) : GameState :=
  let coinsF := (victoryRewards s).1
  let gemsF := (victoryRewards s).2.1
  let xpF := (victoryRewards s).2.2
  let s1 := { s with
    coins := s.coins + coinsF,
    gems := s.gems + gemsF,
    statistics := { s.statistics with
      coinsEarned := s.statistics.coinsEarned + coinsF,
      gemsEarned := s.statistics.gemsEarned + gemsF,
      totalVictories := s.statistics.totalVictories + 1 } }
  let p := s1.progression
  let r := runLevelLoop (p.experience + xpF) p.experienceToNext p.level p.skillPoints
  let s2 := { s1 with
    progression := { p with
      experience := r.1, experienceToNext := r.2.1, level := r.2.2.1,
      skillPoints := r.2.2.2.1 },
    combatLog := s1.combatLog ++ levelUpLogs p.level r.2.2.2.2
      ++ [LogEvent.victoryMsg coinsF gemsF xpF] }
  let s3 : GameState :=
    if 10 ≤ s2.zone ∧ rng.dropRoll < (3/10 : ℚ) then
      let rar := if rng.dropRareRoll < (1/10 : ℚ) then Rarity.rare else Rarity.common
      if rng.dropTypeRoll < (1/2 : ℚ) then
        let w := rng.dropWeapon
        { s2 with
          inventory := { s2.inventory with weapons := s2.inventory.weapons ++ [w] },
          collectionBook := bumpRarity rar (addWeaponName w.name s2.collectionBook),
          statistics := { s2.statistics with itemsCollected := s2.statistics.itemsCollected + 1 },
          combatLog := s2.combatLog ++ [LogEvent.dropWeapon w.name] }
      else
        let a := rng.dropArmor
        { s2 with
          inventory := { s2.inventory with armor := s2.inventory.armor ++ [a] },
          collectionBook := bumpRarity rar (addArmorName a.name s2.collectionBook),
          statistics := { s2.statistics with itemsCollected := s2.statistics.itemsCollected + 1 },
          combatLog := s2.combatLog ++ [LogEvent.dropArmor a.name] }
    else s2
  let s4 := { s3 with
    zone := s3.zone + 1,
    statistics := { s3.statistics with zonesReached := max s3.statistics.zonesReached (s3.zone + 1) },
    inCombat := false,
    currentEnemy := none }
  let s5 : GameState :=
    if s4.gameMode.current ≠ GameModeKind.survival then
      let heal := Int.floor ((s4.playerStats.maxHp : ℚ) * (1/5))
      { s4 with playerStats :=
          { s4.playerStats with hp := min s4.playerStats.maxHp (s4.playerStats.hp + heal) } }
    else s4
  let s6 : GameState :=
    if s5.adventureSkills.selectedSkill = some AdvSkillType.healingAura
        ∧ s5.adventureSkills.skillEffects.healingAuraActive then
      let heal := Int.floor ((s5.playerStats.maxHp : ℚ) * (1/10))
      { s5 with
        playerStats :=
          { s5.playerStats with hp := min s5.playerStats.maxHp (s5.playerStats.hp + heal) },
        combatLog := s5.combatLog ++ [LogEvent.healingAuraMsg heal] }
    else s5
  { s6 with adventureSkills := resetAdventureSkills }

/-- The correct-answer branch of `attack`. -/
def attackOnCorrect (enemy : Enemy) (rng : AttackRng) (s : GameState) : GameState :=
  let cur := s.knowledgeStreak.current + 1
  let ks : KnowledgeStreak :=
    { current := cur,
      best := max s.knowledgeStreak.best cur,
      multiplier := 1 + (cur : ℚ) * (1/10) }
  let s1 := { s with
    statistics := { s.statistics with correctAnswers := s.statistics.correctAnswers + 1 },
    knowledgeStreak := ks }
  let r := correctDamage s1 rng
  let dmg := r.1
  let enemy1 : Enemy := { enemy with hp := enemy.hp - dmg }
  let s2 := { s1 with
    currentEnemy := some enemy1,
    statistics := { s1.statistics with totalDamageDealt := s1.statistics.totalDamageDealt + dmg },
    combatLog := s1.combatLog ++ r.2 ++ [LogEvent.playerHit dmg] }
  let s3 : GameState :=
    if s2.adventureSkills.selectedSkill = some AdvSkillType.vampiric
        ∧ s2.adventureSkills.skillEffects.vampiricActive then
      let healing := Int.floor ((dmg : ℚ) * (1/4))
      { s2 with
        playerStats :=
          { s2.playerStats with hp := min s2.playerStats.maxHp (s2.playerStats.hp + healing) },
        combatLog := s2.combatLog ++ [LogEvent.vampiricHeal healing] }
    else s2
  if enemy1.hp ≤ 0 then victoryTransition rng s3 else s3

/-- Weapon half of the end-of-action durability wear: an equipped weapon
with positive durability loses one point (aliased into the owning list) and
the resolved attack is recomputed. -/
def durabilityStepW (s : GameState) : GameState :=
  match s.inventory.currentWeapon with
  | some w =>
    if 0 < w.durability then
      let w1 := { w with durability := w.durability - 1 }
      let inv :=
        { s.inventory with
          currentWeapon := some w1,
          weapons := decDurabilityW w.id s.inventory.weapons }
      let atk1 := calcAtk s.playerStats.baseAtk (some w1) inv.equippedRelics
        s.gardenOfGrowth.totalGrowthBonus
      { s with
        inventory := inv,
        playerStats := { s.playerStats with atk := atk1 } }
    else s
  | none => s

/-- Armor half of the end-of-action durability wear. -/
def durabilityStepA (s : GameState) : GameState :=
  match s.inventory.currentArmor with
  | some a =>
    if 0 < a.durability then
      let a1 := { a with durability := a.durability - 1 }
      let inv :=
        { s.inventory with
          currentArmor := some a1,
          armor := decDurabilityA a.id s.inventory.armor }
      let def1 := calcDef s.playerStats.baseDef (some a1) inv.equippedRelics
        s.gardenOfGrowth.totalGrowthBonus
      { s with
        inventory := inv,
        playerStats := { s.playerStats with defense := def1 } }
    else s
  | none => s

/-- End-of-action durability wear: the weapon block followed by the armor
block, exactly as in the tail of `attack`. -/
def durabilityStep (s : GameState) : GameState :=
  durabilityStepA (durabilityStepW s)

/-- The statistics bookkeeping at the top of `attack`: the answered-question
counter and the per-category accuracy map. -/
def attackEntryState (hit : Bool) (category : Option String) (s : GameState) : GameState :=
  let stats0 := { s.statistics with
    totalQuestionsAnswered := s.statistics.totalQuestionsAnswered + 1 }
  let stats1 :=
    match category with
    | some c =>
      { stats0 with accuracyByCategory := bumpCategory hit c stats0.accuracyByCategory }
    | none => stats0
  { s with statistics := stats1 }

/-- The `attack(hit, category)` transition — the combat `answer` entry
point of the engine. -/
def attack (hit : Bool) (category : Option String) (rng : AttackRng) (s : GameState) :
    GameState :=
  match s.currentEnemy with
  | none => s
  | some enemy =>
    if s.inCombat then
      let s1 := attackEntryState hit category s
      durabilityStep (if hit then attackOnCorrect enemy rng s1 else attackOnWrong enemy s1)
    else s

/-- The fresh-game state built by `createInitialGameState`, with time zero
taken as the session start (so the market refresh timer is 5 minutes =
300000 ms) and an empty market offer list (it is filled by the external
relic generator on load). -/
def initialGameState : GameState :=
  { coins := 500, gems := 50, shinyGems := 0, zone := 1,
    playerStats := ⟨100, 100, 20, 10, 20, 10, 100⟩,
    inventory := ⟨[], [], [], none, none, []⟩,
    currentEnemy := none, inCombat := false, combatLog := [],
    knowledgeStreak := ⟨0, 0, 1⟩,
    gameMode := ⟨GameModeKind.normal, 3, 3⟩,
    statistics := ⟨0, 0, [], 1, 0, 0, 0, 0, 0, 0, 0, 0, 0, 0, 0, 0⟩,
    collectionBook := ⟨[], [], 0, 0, ⟨0, 0, 0, 0, 0⟩⟩,
    cheats := ⟨false, false, false⟩,
    mining := ⟨0, 0⟩,
    yojefMarket := ⟨[], 0, 300000⟩,
    dailyRewards := ⟨none, 0, 0, none, []⟩,
    progression := ⟨1, 0, 100, 0, [], 0, 0⟩,
    offlineProgress := ⟨0, 0, 0, 0, 8⟩,
    gardenOfGrowth := ⟨false, none, none, 0, 0, 0, 1000, 1000, 100⟩,
    hasUsedRevival := false,
    skills := ⟨none, none⟩,
    adventureSkills := ⟨none, [], false, resetSkillEffects⟩,
    researchLevel := 0 }

/-! Loot-generator adapter: chest opening, and the weighted-rarity walk. -/

/-- Tier of the loop index in `openChest`:
the source array of tier names indexed by the loop counter. -/
def rarityOfIndex : Nat → Rarity
  | 0 => Rarity.common
  | 1 => Rarity.rare
  | 2 => Rarity.epic
  | 3 => Rarity.legendary
  | _ => Rarity.mythical

/-- The cumulative-weight walk of `openChest`: starting from the initial
value `common`, add each weight to the running total and stop at the first
index where the draw is at most the cumulative sum (`random <= cumulative`
in the source); when the walk exhausts the list the initial `common`
remains. -/
def selectRarityGo : List ℚ → ℚ → ℚ → Nat → Rarity
  | [], _, _, _ => Rarity.common
  | w :: ws, r, cumulative, i =>
    if r ≤ cumulative + w then rarityOfIndex i
    else selectRarityGo ws r (cumulative + w) (i + 1)

/-- Rarity selection of `openChest` over the weight vector returned by the
external `getChestRarityWeights(cost)` and a draw `r` in `[0, 100)`. -/
def selectRarity (weights : List ℚ) (r : ℚ) : Rarity :=
  selectRarityGo weights r 0 0

/-- Enchant chance by rarity in `openChest` (5% base; epic 15%,
legendary 25%, mythical 40%). -/
def enchantChance : Rarity → ℚ
  | Rarity.epic => 3/20
  | Rarity.legendary => 1/4
  | Rarity.mythical => 2/5
  | _ => 1/20

/-- Gem multiplier of the gems outcome of `openChest`. -/
def gemMultiplier : Rarity → Int
  | Rarity.common => 1
  | Rarity.rare => 2
  | Rarity.epic => 3
  | Rarity.legendary => 5
  | Rarity.mythical => 8

/-- Oracle for one `openChest` call: the external weight table, the random
draws, and the externally generated items (indexed by the loop counter). -/
structure ChestRng where
  weights : List ℚ
  rarityRoll : ℚ
  itemsRoll : ℚ
  countRoll : ℚ
  typeRoll : Nat → ℚ
  enchantRoll : Nat → ℚ
  genWeapon : Nat → Rarity → Bool → Weapon
  genArmor : Nat → Rarity → Bool → Armor
  rewardTypeRoll : ℚ
  bonusRoll : ℚ

/-- The `ChestReward` value returned to the caller. -/
inductive ChestReward
  | items (isWeaponLabel : Bool) (its : List (Sum Weapon Armor))
  | gems (amount : Int)
deriving DecidableEq, Repr

/-- The item batch generated by `openChest` (weapon-vs-armor 50/50 per
item; enchant chance scaling with the selected rarity). -/
def chestItems (rng : ChestRng) (rar : Rarity) (count : Nat) : List (Sum Weapon Armor) :=
  (List.range count).map (fun i =>
    if rng.typeRoll i < (1/2 : ℚ) then
      Sum.inl (rng.genWeapon i rar (decide (rng.enchantRoll i < enchantChance rar)))
    else
      Sum.inr (rng.genArmor i rar (decide (rng.enchantRoll i < enchantChance rar))))

/-- Merge one generated item into inventory, collection book and item
statistics, as in the reward-application loop of `openChest`. -/
def addChestItem (acc : GameState) (it : Sum Weapon Armor) : GameState :=
  match it with
  | Sum.inl w =>
    { acc with
      inventory := { acc.inventory with weapons := acc.inventory.weapons ++ [w] },
      collectionBook := bumpRarity w.rarity (addWeaponName w.name acc.collectionBook),
      statistics := { acc.statistics with itemsCollected := acc.statistics.itemsCollected + 1 } }
  | Sum.inr a =>
    { acc with
      inventory := { acc.inventory with armor := acc.inventory.armor ++ [a] },
      collectionBook := bumpRarity a.rarity (addArmorName a.name acc.collectionBook),
      statistics := { acc.statistics with itemsCollected := acc.statistics.itemsCollected + 1 } }

/-- `openChest(cost)`: `null` (and no state change) when the player cannot
afford the chest; otherwise the weighted-rarity draw, an 80/20 item-vs-gem
split, item generation (30% chance of two items), reward application, and
the always-granted bonus gems. -/
def openChest (cost : Int) (rng : ChestRng) (s : GameState) : Option ChestReward × GameState :=
  if s.coins < cost then (none, s)
  else
    let rar := selectRarity rng.weights rng.rarityRoll
    let reward : ChestReward :=
      if rng.itemsRoll < (4/5 : ℚ) then
        let count : Nat := if rng.countRoll < (3/10 : ℚ) then 2 else 1
        ChestReward.items (rng.rewardTypeRoll < (1/2 : ℚ)) (chestItems rng rar count)
      else
        ChestReward.gems (Int.floor ((cost : ℚ) / 20) * gemMultiplier rar)
    let s1 := { s with
      coins := if s.cheats.infiniteCoins then s.coins else s.coins - cost,
      statistics := { s.statistics with chestsOpened := s.statistics.chestsOpened + 1 } }
    let s2 : GameState :=
      match reward with
      | ChestReward.gems g =>
        { s1 with
          gems := s1.gems + g,
          statistics := { s1.statistics with gemsEarned := s1.statistics.gemsEarned + g } }
      | ChestReward.items _ its => its.foldl addChestItem s1
    let bonusGems : Int := Int.floor (rng.bonusRoll * 10) + 5
    (some reward,
      { s2 with
        gems := s2.gems + bonusGems,
        statistics := { s2.statistics with gemsEarned := s2.statistics.gemsEarned + bonusGems } })

/-! Inventory economy transitions. -/

/-- One upgrade of an item: level +1, upgrade cost ×1.5 floored, sell price
×1.2 floored. -/
def upgradeWeaponItem (w : Weapon) : Weapon :=
  { w with
    level := w.level + 1,
    upgradeCost := Int.floor ((w.upgradeCost : ℚ) * (3/2)),
    sellPrice := Int.floor ((w.sellPrice : ℚ) * (6/5)) }

/-- Armor version of `upgradeWeaponItem`. -/
def upgradeArmorItem (a : Armor) : Armor :=
  { a with
    level := a.level + 1,
    upgradeCost := Int.floor ((a.upgradeCost : ℚ) * (3/2)),
    sellPrice := Int.floor ((a.sellPrice : ℚ) * (6/5)) }

/-- The `currentWeapon?.id === id` test of the source. -/
def isEquippedWeaponId (inv : Inventory) (weaponId : Nat) : Bool :=
  match inv.currentWeapon with
  | some cw => cw.id == weaponId
  | none => false

/-- The `currentArmor?.id === id` test of the source. -/
def isEquippedArmorId (inv : Inventory) (armorId : Nat) : Bool :=
  match inv.currentArmor with
  | some ca => ca.id == armorId
  | none => false

/-- `upgradeWeapon(id)`: no-op when the weapon is missing or gems are
insufficient; otherwise pay the cost, upgrade the item (aliased into the
equipped slot when it is the equipped weapon) and recompute the attack if
equipped. -/
def upgradeWeapon (weaponId : Nat) (s : GameState) : GameState :=
  match s.inventory.weapons.find? (fun w => w.id == weaponId) with
  | none => s
  | some w =>
    if s.gems < w.upgradeCost then s
    else
      let inv := { s.inventory with
        weapons := s.inventory.weapons.map
          (fun x => if x.id = weaponId then upgradeWeaponItem x else x),
        currentWeapon :=
          match s.inventory.currentWeapon with
          | some cw => if cw.id = weaponId then some (upgradeWeaponItem cw) else some cw
          | none => none }
      let s1 := { s with
        gems := s.gems - w.upgradeCost,
        inventory := inv,
        statistics := { s.statistics with itemsUpgraded := s.statistics.itemsUpgraded + 1 } }
      if isEquippedWeaponId s.inventory weaponId then
        { s1 with playerStats := { s1.playerStats with
            atk := calcAtk s1.playerStats.baseAtk (some (upgradeWeaponItem w))
              s1.inventory.equippedRelics s1.gardenOfGrowth.totalGrowthBonus } }
      else s1

/-- `upgradeArmor(id)`, mirroring `upgradeWeapon`. -/
def upgradeArmor (armorId : Nat) (s : GameState) : GameState :=
  match s.inventory.armor.find? (fun a => a.id == armorId) with
  | none => s
  | some a =>
    if s.gems < a.upgradeCost then s
    else
      let inv := { s.inventory with
        armor := s.inventory.armor.map
          (fun x => if x.id = armorId then upgradeArmorItem x else x),
        currentArmor :=
          match s.inventory.currentArmor with
          | some ca => if ca.id = armorId then some (upgradeArmorItem ca) else some ca
          | none => none }
      let s1 := { s with
        gems := s.gems - a.upgradeCost,
        inventory := inv,
        statistics := { s.statistics with itemsUpgraded := s.statistics.itemsUpgraded + 1 } }
      if isEquippedArmorId s.inventory armorId then
        { s1 with playerStats := { s1.playerStats with
            defense := calcDef s1.playerStats.baseDef (some (upgradeArmorItem a))
              s1.inventory.equippedRelics s1.gardenOfGrowth.totalGrowthBonus } }
      else s1

/-- `sellWeapon(id)`: no-op when missing or currently equipped; otherwise
credit the sell price and remove the item. -/
def sellWeapon (weaponId : Nat) (s : GameState) : GameState :=
  match s.inventory.weapons.find? (fun w => w.id == weaponId) with
  | none => s
  | some w =>
    if isEquippedWeaponId s.inventory weaponId then s
    else
      { s with
        coins := s.coins + w.sellPrice,
        statistics := { s.statistics with
          coinsEarned := s.statistics.coinsEarned + w.sellPrice,
          itemsSold := s.statistics.itemsSold + 1 },
        inventory := { s.inventory with
          weapons := s.inventory.weapons.eraseP (fun x => x.id == weaponId) } }

/-- `sellArmor(id)`, mirroring `sellWeapon`. -/
def sellArmor (armorId : Nat) (s : GameState) : GameState :=
  match s.inventory.armor.find? (fun a => a.id == armorId) with
  | none => s
  | some a =>
    if isEquippedArmorId s.inventory armorId then s
    else
      { s with
        coins := s.coins + a.sellPrice,
        statistics := { s.statistics with
          coinsEarned := s.statistics.coinsEarned + a.sellPrice,
          itemsSold := s.statistics.itemsSold + 1 },
        inventory := { s.inventory with
          armor := s.inventory.armor.eraseP (fun x => x.id == armorId) } }

/-- `exchangeShinyGems(amount)`: false (no change) when short of shiny
gems; otherwise convert at 1 shiny gem to 10 gems. -/
def exchangeShinyGems (amount : Int) (s : GameState) : Bool × GameState :=
  if s.shinyGems < amount then (false, s)
  else
    (true, { s with
      shinyGems := s.shinyGems - amount,
      gems := s.gems + amount * 10,
      statistics := { s.statistics with
        gemsEarned := s.statistics.gemsEarned + amount * 10 } })

/-- `purchaseRelic(id)`: false when the relic is absent from the market or
gems are insufficient; otherwise pay, take the relic and remove the offer. -/
def purchaseRelic (relicId : Nat) (s : GameState) : Bool × GameState :=
  match s.yojefMarket.items.find? (fun r => r.id == relicId) with
  | none => (false, s)
  | some relic =>
    if s.gems < relic.cost then (false, s)
    else
      (true, { s with
        gems := s.gems - relic.cost,
        inventory := { s.inventory with relics := s.inventory.relics ++ [relic] },
        yojefMarket := { s.yojefMarket with
          items := s.yojefMarket.items.filter (fun r => !(r.id == relicId)) } })

/-- `purchaseMythical(cost)`: false when coins are insufficient; otherwise
pay and add the externally generated mythical item. -/
def purchaseMythical (cost : Int) (item : Sum Weapon Armor) (s : GameState) :
    Bool × GameState :=
  if s.coins < cost then (false, s)
  else
    let s1 := { s with coins := s.coins - cost }
    let s2 : GameState :=
      match item with
      | Sum.inl w =>
        { s1 with
          inventory := { s1.inventory with weapons := s1.inventory.weapons ++ [w] },
          collectionBook := addWeaponName w.name s1.collectionBook }
      | Sum.inr a =>
        { s1 with
          inventory := { s1.inventory with armor := s1.inventory.armor ++ [a] },
          collectionBook := addArmorName a.name s1.collectionBook }
    (true, { s2 with
      collectionBook := { s2.collectionBook with
        rarityStats := { s2.collectionBook.rarityStats with
          mythical := s2.collectionBook.rarityStats.mythical + 1 } },
      statistics := { s2.statistics with
        itemsCollected := s2.statistics.itemsCollected + 1 } })

/-- `prestige()`: false below level 50; otherwise bank prestige points
(`floor(level / 10)`), reset progression, zone and currencies. -/
def prestige (s : GameState) : Bool × GameState :=
  if s.progression.level < 50 then (false, s)
  else
    (true, { s with
      progression := { s.progression with
        prestigeLevel := s.progression.prestigeLevel + 1,
        prestigePoints := s.progression.prestigePoints + ((s.progression.level / 10 : Nat) : Int),
        level := 1, experience := 0, experienceToNext := 100, skillPoints := 0,
        unlockedSkills := [] },
      zone := 1, coins := 500, gems := 50,
      playerStats := { s.playerStats with hp := s.playerStats.maxHp } })

/-- `mineGem(x, y)`: the 5% shiny draw decides between exactly one ordinary
gem and exactly one shiny gem; the pair is credited to the currencies, the
mining counters and the statistics, and returned to the caller (the grid
coordinates do not affect the state). -/
def mineGem (shinyRoll : ℚ) (s : GameState) : (Int × Int) × GameState :=
  let isShiny := shinyRoll < (1/20 : ℚ)
  let gems : Int := if isShiny then 0 else 1
  let shinyGems : Int := if isShiny then 1 else 0
  ((gems, shinyGems),
    { s with
      gems := s.gems + gems,
      shinyGems := s.shinyGems + shinyGems,
      mining := { totalGemsMined := s.mining.totalGemsMined + gems,
                  totalShinyGemsMined := s.mining.totalShinyGemsMined + shinyGems },
      statistics := { s.statistics with
        gemsEarned := s.statistics.gemsEarned + gems,
        shinyGemsEarned := s.statistics.shinyGemsEarned + shinyGems } })

/-- `claimDailyReward()`: false when no pending reward exists (and the
state is untouched); otherwise credit the reward, add the externally
generated special item on milestone days, and clear the pending slot. -/
def claimDailyReward (now : ℚ) (specialItem : Sum Weapon Armor) (s : GameState) :
    Bool × GameState :=
  match s.dailyRewards.availableReward with
  | none => (false, s)
  | some reward =>
    let s1 := { s with
      coins := s.coins + reward.coins,
      gems := s.gems + reward.gems,
      statistics := { s.statistics with
        coinsEarned := s.statistics.coinsEarned + reward.coins,
        gemsEarned := s.statistics.gemsEarned + reward.gems } }
    let s2 : GameState :=
      if reward.special = some "Legendary Chest" ∨ reward.special = some "Mythical Item" then
        match specialItem with
        | Sum.inl w =>
          { s1 with inventory := { s1.inventory with weapons := s1.inventory.weapons ++ [w] } }
        | Sum.inr a =>
          { s1 with inventory := { s1.inventory with armor := s1.inventory.armor ++ [a] } }
      else s1
    (true, { s2 with
      dailyRewards := { s2.dailyRewards with
        rewardHistory := s2.dailyRewards.rewardHistory
          ++ [{ reward with claimed := true, claimDate := some now }],
        lastClaimDate := some now,
        availableReward := none } })

/-- `rollSkill()`: false below 100 coins; otherwise pay 100 coins, install
the externally generated menu skill, and apply the immediate effects of
zone-skipper, market-refresh, health-boost and stat-amplifier. -/
def rollSkill (now : ℚ) (skill : MenuSkill) (freshItems : List RelicItem) (s : GameState) :
    Bool × GameState :=
  if s.coins < 100 then (false, s)
  else
    let s1 := { s with
      coins := s.coins - 100,
      skills := { activeMenuSkill := some skill, lastRollTime := some now } }
    let s2 : GameState :=
      match skill.mtype with
      | MenuSkillType.zoneSkipper =>
        { s1 with
          zone := s1.zone + 5,
          statistics := { s1.statistics with
            zonesReached := max s1.statistics.zonesReached (s1.zone + 5) } }
      | MenuSkillType.marketRefreshSkill =>
        { s1 with yojefMarket :=
            { items := freshItems, lastRefresh := now, nextRefresh := now + 300000 } }
      | MenuSkillType.healthBoost =>
        { s1 with playerStats := { s1.playerStats with
            maxHp := s1.playerStats.baseHp * 3, hp := s1.playerStats.baseHp * 3 } }
      | MenuSkillType.statAmplifier =>
        let weaponAtk :=
          match s1.inventory.currentWeapon with
          | some w => weaponAtkOf w
          | none => 0
        let armorDef :=
          match s1.inventory.currentArmor with
          | some a => armorDefOf a
          | none => 0
        let gb := 1 + s1.gardenOfGrowth.totalGrowthBonus / 100
        { s1 with playerStats := { s1.playerStats with
            atk := Int.floor (((s1.playerStats.baseAtk + weaponAtk
              + relicAtkBonus s1.inventory.equippedRelics : Int) : ℚ) * (3/2) * gb),
            defense := Int.floor (((s1.playerStats.baseDef + armorDef
              + relicDefBonus s1.inventory.equippedRelics : Int) : ℚ) * (3/2) * gb),
            maxHp := Int.floor ((s1.playerStats.baseHp : ℚ) * (3/2) * gb) } }
      | _ => s1
    (true, s2)

/-- `plantSeed()`: false when coins are short or a seed is already
planted; otherwise pay the seed cost and start with 24 hours of water. -/
def plantSeed (now : ℚ) (s : GameState) : Bool × GameState :=
  if s.coins < s.gardenOfGrowth.seedCost ∨ s.gardenOfGrowth.isPlanted then (false, s)
  else
    (true, { s with
      coins := s.coins - s.gardenOfGrowth.seedCost,
      gardenOfGrowth := { s.gardenOfGrowth with
        isPlanted := true, plantedAt := some now, lastWatered := some now,
        waterHoursRemaining := 24 } })

/-- `buyWater(hours)`: false when no seed is planted or coins are short of
`floor((hours/24) * waterCost)`; otherwise pay and extend the water timer. -/
def buyWater (hours : ℚ) (now : ℚ) (s : GameState) : Bool × GameState :=
  if ¬ s.gardenOfGrowth.isPlanted then (false, s)
  else
    let cost := Int.floor ((hours / 24) * (s.gardenOfGrowth.waterCost : ℚ))
    if s.coins < cost then (false, s)
    else
      (true, { s with
        coins := s.coins - cost,
        gardenOfGrowth := { s.gardenOfGrowth with
          waterHoursRemaining := s.gardenOfGrowth.waterHoursRemaining + hours,
          lastWatered := some now } })

/-! The load-time idle reconciliation (`loadGameState`).  The source runs
five blocks in sequence on the loaded snapshot; each block reads and
writes a distinct component of the state (plus the never-written research
level and the injected `now`), so the sequential composition is expressed
as a simultaneous component update. -/

/-- Offline accrual: when more than 0.1 hours have passed since the last
save, recompute (overwrite) the pending offline coins, gems and time,
capped at `maxOfflineHours`. -/
def reconcileOffline (now : ℚ) (researchLevel : Nat) (p : OfflineProgress) : OfflineProgress :=
  let offlineHours := (now - p.lastSaveTime) / 3600000
  if 1/10 < offlineHours then
    let actual := min offlineHours p.maxOfflineHours
    let coinsPerHour : ℚ := 10 + (researchLevel : ℚ) * 2
    let gemsPerHour : ℚ := 1 + ((researchLevel / 5 : Nat) : ℚ)
    { p with
      offlineCoins := Int.floor (actual * coinsPerHour),
      offlineGems := Int.floor (actual * gemsPerHour),
      offlineTime := actual * 3600 }
  else p

/-- Garden growth: when planted with water remaining, deplete the water by
the hours since the last watering (floored at 0; `lastWatered` is NOT
advanced), grow at 0.5 cm per elapsed hour while water remains (capped),
and recompute the growth bonus as 5% per cm. -/
def reconcileGarden (now : ℚ) (g : GardenOfGrowth) : GardenOfGrowth :=
  if g.isPlanted ∧ 0 < g.waterHoursRemaining then
    let lw := g.lastWatered.getD (g.plantedAt.getD 0)
    let t := (now - lw) / 3600000
    let water1 := max 0 (g.waterHoursRemaining - t)
    let g1 := { g with waterHoursRemaining := water1 }
    let g2 : GardenOfGrowth :=
      if 0 < water1 then
        { g1 with growthCm := min g1.maxGrowthCm (g1.growthCm + t * (1/2)) }
      else g1
    { g2 with totalGrowthBonus := g2.growthCm * 5 }
  else g

/-- Daily rewards: a first-ever load seeds streak 1 with the fixed
first-time reward; otherwise, when at least one whole day has passed, the
streak is incremented on exactly one day and reset to 1 on two or more,
and a new pending reward is synthesised from the streak day (milestones at
days 7 and 14). -/
def reconcileDaily (now : ℚ) (d : DailyRewards) : DailyRewards :=
  match d.lastClaimDate with
  | some lastClaim =>
    let daysSince := Int.floor ((now - lastClaim) / 86400000)
    if 1 ≤ daysSince then
      let streak := if daysSince = 1 then d.currentStreak + 1 else 1
      { d with
        currentStreak := streak,
        maxStreak := max d.maxStreak streak,
        availableReward := some
          { day := streak,
            coins := 50 + (streak : Int) * 25,
            gems := 5 + ((streak / 2 : Nat) : Int),
            special :=
              if streak = 7 then some "Legendary Chest"
              else if streak = 14 then some "Mythical Item" else none,
            claimed := false,
            claimDate := none } }
    else d
  | none =>
    { d with
      currentStreak := 1,
      availableReward := some
        { day := 1, coins := 75, gems := 5, special := none, claimed := false,
          claimDate := none } }

/-- Market refresh: replace the offer list with the externally generated
batch and advance both timestamps when the refresh time has passed. -/
def reconcileMarket (now : ℚ) (freshItems : List RelicItem) (m : YojefMarket) : YojefMarket :=
  if m.nextRefresh < now then
    { items := freshItems, lastRefresh := now, nextRefresh := now + 300000 }
  else m

/-- Buff expiry: clear the active menu skill once past its expiry. -/
def reconcileBuff (now : ℚ) (sk : Skills) : Skills :=
  match sk.activeMenuSkill with
  | some ms => if ms.expiresAt < now then { sk with activeMenuSkill := none } else sk
  | none => sk

/-- The load-time reconciliation. -/
def reconcile (now : ℚ) (freshItems : List RelicItem) (s : GameState) : GameState :=
  { s with
    offlineProgress := reconcileOffline now s.researchLevel s.offlineProgress,
    gardenOfGrowth := reconcileGarden now s.gardenOfGrowth,
    dailyRewards := reconcileDaily now s.dailyRewards,
    yojefMarket := reconcileMarket now freshItems s.yojefMarket,
    skills := reconcileBuff now s.skills }

/-- The currency part of the state invariant: coins, gems and shiny gems
are non-negative. -/
abbrev nonnegCur (s : GameState) : Prop :=
  0 ≤ s.coins ∧ 0 ≤ s.gems ∧ 0 ≤ s.shinyGems

/-- C3: for every equipped weapon (resp. armor), the resolved attack (resp.
defense) recomputed by `equipWeapon` (resp. `equipArmor`) equals
`floor((baseStat + floor(itemPower(level) * durability/maxDurability) +
relicBonus) * environmentMultiplier)` — the formula `specResolvedStat`
transcribed from the spec — so the equipment contribution scales linearly
in `durability/maxDurability` before flooring; and at durability 0 the
equipment contributes exactly 0 to the resolved stat. -/
theorem c3_durability_scaling (s : GameState) (w : Weapon) (a : Armor) :
    ((equipWeapon w s).playerStats.atk
        = specResolvedStat s.playerStats.baseAtk
            (specEffectivePower (weaponAtkOf w) w.durability w.maxDurability)
            (relicAtkBonus s.inventory.equippedRelics)
            s.gardenOfGrowth.totalGrowthBonus)
    ∧ (w.durability = 0 →
        (equipWeapon w s).playerStats.atk
          = Int.floor
              (((s.playerStats.baseAtk + relicAtkBonus s.inventory.equippedRelics : Int) : ℚ)
                * (1 + s.gardenOfGrowth.totalGrowthBonus / 100)))
    ∧ ((equipArmor a s).playerStats.defense
        = specResolvedStat s.playerStats.baseDef
            (specEffectivePower (armorDefOf a) a.durability a.maxDurability)
            (relicDefBonus s.inventory.equippedRelics)
            s.gardenOfGrowth.totalGrowthBonus)
    ∧ (a.durability = 0 →
        (equipArmor a s).playerStats.defense
          = Int.floor
              (((s.playerStats.baseDef + relicDefBonus s.inventory.equippedRelics : Int) : ℚ)
                * (1 + s.gardenOfGrowth.totalGrowthBonus / 100))) := by
  refine ⟨?_, ?_, ?_, ?_⟩
  · cases hw : s.inventory.currentWeapon <;>
      simp [equipWeapon, calcAtk, effectiveWeaponAtk, specResolvedStat, specEffectivePower, hw]
  · intro h0
    cases hw : s.inventory.currentWeapon <;>
      simp [equipWeapon, calcAtk, effectiveWeaponAtk, specResolvedStat, specEffectivePower,
        hw, h0]
  · cases ha : s.inventory.currentArmor <;>
      simp [equipArmor, calcDef, effectiveArmorDef, specResolvedStat, specEffectivePower, ha]
  · intro h0
    cases ha : s.inventory.currentArmor <;>
      simp [equipArmor, calcDef, effectiveArmorDef, specResolvedStat, specEffectivePower,
        ha, h0]

/-- Witness for C3 at a concrete input: a level-2 weapon with durability
0 out of 10 contributes nothing (the resolved attack equals the weaponless
formula), evaluated on the fresh-game state. -/
theorem c3_durability_scaling_witness :
    (equipWeapon ⟨1, "w", Rarity.common, 6, 2, 0, 10, 5, 5⟩ initialGameState).playerStats.atk
      = Int.floor (((initialGameState.playerStats.baseAtk
            + relicAtkBonus initialGameState.inventory.equippedRelics : Int) : ℚ)
          * (1 + initialGameState.gardenOfGrowth.totalGrowthBonus / 100)) :=
  (c3_durability_scaling initialGameState ⟨1, "w", Rarity.common, 6, 2, 0, 10, 5, 5⟩
    ⟨1, "a", Rarity.common, 4, 1, 3, 10, 5, 5⟩).2.1 rfl

/-- C9: equipping a weapon (resp. armor) while another one is equipped
decrements the previously equipped item's durability by one, floored at
zero (visible through the owning inventory list that aliases the equipped
object), before the new item's contribution is folded into the resolved
stats; equipping with nothing previously equipped changes no durability. -/
theorem c9_equip_swap_durability (s : GameState) (w : Weapon) (a : Armor) :
    ((∀ old, s.inventory.currentWeapon = some old → w.id ≠ old.id →
        (equipWeapon w s).inventory.weapons = decDurabilityW old.id s.inventory.weapons
        ∧ (equipWeapon w s).inventory.currentWeapon = some w
        ∧ (equipWeapon w s).inventory.armor = s.inventory.armor
        ∧ (equipWeapon w s).playerStats.atk
            = calcAtk s.playerStats.baseAtk (some w) s.inventory.equippedRelics
                s.gardenOfGrowth.totalGrowthBonus)
    ∧ (s.inventory.currentWeapon = none →
        (equipWeapon w s).inventory.weapons = s.inventory.weapons
        ∧ (equipWeapon w s).inventory.armor = s.inventory.armor
        ∧ (equipWeapon w s).inventory.currentWeapon = some w))
    ∧ ((∀ old, s.inventory.currentArmor = some old → a.id ≠ old.id →
        (equipArmor a s).inventory.armor = decDurabilityA old.id s.inventory.armor
        ∧ (equipArmor a s).inventory.currentArmor = some a
        ∧ (equipArmor a s).inventory.weapons = s.inventory.weapons
        ∧ (equipArmor a s).playerStats.defense
            = calcDef s.playerStats.baseDef (some a) s.inventory.equippedRelics
                s.gardenOfGrowth.totalGrowthBonus)
    ∧ (s.inventory.currentArmor = none →
        (equipArmor a s).inventory.armor = s.inventory.armor
        ∧ (equipArmor a s).inventory.weapons = s.inventory.weapons
        ∧ (equipArmor a s).inventory.currentArmor = some a)) := by
  constructor
  · constructor
    · intro old hold _
      simp [equipWeapon, hold]
    · intro hnone
      simp [equipWeapon, hnone]
  · constructor
    · intro old hold _
      simp [equipArmor, hold]
    · intro hnone
      simp [equipArmor, hnone]

/-- Witness for C9 at a concrete input: with a durability-3 weapon
equipped, equipping a different weapon leaves the inventory list with the
old weapon at durability 2. -/
theorem c9_equip_swap_durability_witness :
    (equipWeapon ⟨2, "new", Rarity.common, 6, 1, 10, 10, 5, 5⟩
        { initialGameState with
          inventory := { initialGameState.inventory with
            weapons := [⟨1, "old", Rarity.common, 5, 1, 3, 10, 5, 5⟩],
            currentWeapon := some ⟨1, "old", Rarity.common, 5, 1, 3, 10, 5, 5⟩ } }
      ).inventory.weapons = [⟨1, "old", Rarity.common, 5, 1, 2, 10, 5, 5⟩] := by
  have h := ((c9_equip_swap_durability
    { initialGameState with
      inventory := { initialGameState.inventory with
        weapons := [⟨1, "old", Rarity.common, 5, 1, 3, 10, 5, 5⟩],
        currentWeapon := some ⟨1, "old", Rarity.common, 5, 1, 3, 10, 5, 5⟩ } }
    ⟨2, "new", Rarity.common, 6, 1, 10, 10, 5, 5⟩
    ⟨1, "a", Rarity.common, 4, 1, 3, 10, 5, 5⟩).1.1
    ⟨1, "old", Rarity.common, 5, 1, 3, 10, 5, 5⟩ rfl (by decide)).1
  rw [h]
  decide

set_option maxHeartbeats 1600000 in
theorem victoryTransition_progression (rng : AttackRng) (s : GameState) :
    (victoryTransition rng s).progression =
      { s.progression with
        experience := (runLevelLoop (s.progression.experience + (victoryRewards s).2.2)
          s.progression.experienceToNext s.progression.level s.progression.skillPoints).1,
        experienceToNext := (runLevelLoop (s.progression.experience + (victoryRewards s).2.2)
          s.progression.experienceToNext s.progression.level s.progression.skillPoints).2.1,
        level := (runLevelLoop (s.progression.experience + (victoryRewards s).2.2)
          s.progression.experienceToNext s.progression.level s.progression.skillPoints).2.2.1,
        skillPoints := (runLevelLoop (s.progression.experience + (victoryRewards s).2.2)
          s.progression.experienceToNext s.progression.level s.progression.skillPoints).2.2.2.1 } := by
  unfold victoryTransition
  dsimp only
  split_ifs <;> rfl

/-- C2: every XP award on enemy defeat is applied through the level-up loop
`runLevelLoop` (the `while experience >= experienceToNext` loop): the
victory transition's post-state progression is exactly the loop's output on
`experience + xp`, the post-state always satisfies
`experience < experienceToNext`, and the level rises by exactly the number
of thresholds crossed (the loop's iteration count, possibly several for a
single award). -/
theorem c2_level_up_loop :
    (∀ (e toNext : Int) (level sp : Nat),
        (runLevelLoop e toNext level sp).1 < (runLevelLoop e toNext level sp).2.1
        ∧ (runLevelLoop e toNext level sp).2.2.1
            = level + (runLevelLoop e toNext level sp).2.2.2.2)
    ∧ (∀ (rng : AttackRng) (s : GameState),
        (victoryTransition rng s).progression.experience
            = (runLevelLoop (s.progression.experience + (victoryRewards s).2.2)
                s.progression.experienceToNext s.progression.level s.progression.skillPoints).1
        ∧ (victoryTransition rng s).progression.experienceToNext
            = (runLevelLoop (s.progression.experience + (victoryRewards s).2.2)
                s.progression.experienceToNext s.progression.level s.progression.skillPoints).2.1
        ∧ (victoryTransition rng s).progression.level
            = s.progression.level
              + (runLevelLoop (s.progression.experience + (victoryRewards s).2.2)
                  s.progression.experienceToNext s.progression.level
                  s.progression.skillPoints).2.2.2.2
        ∧ (victoryTransition rng s).progression.experience
            < (victoryTransition rng s).progression.experienceToNext) := by
  constructor
  · intro e toNext level sp
    exact ⟨runLevelLoop_exp_lt e toNext level sp, runLevelLoop_level e toNext level sp⟩
  · intro rng s
    have h := victoryTransition_progression rng s
    rw [h]
    refine ⟨rfl, rfl, ?_, ?_⟩
    · exact runLevelLoop_level _ _ _ _
    · exact runLevelLoop_exp_lt _ _ _ _

theorem durabilityStep_preserves (x : GameState) :
    (durabilityStep x).playerStats.hp = x.playerStats.hp
    ∧ (durabilityStep x).playerStats.maxHp = x.playerStats.maxHp
    ∧ (durabilityStep x).inCombat = x.inCombat
    ∧ (durabilityStep x).currentEnemy = x.currentEnemy
    ∧ (durabilityStep x).statistics = x.statistics
    ∧ (durabilityStep x).adventureSkills = x.adventureSkills
    ∧ (durabilityStep x).hasUsedRevival = x.hasUsedRevival
    ∧ (durabilityStep x).gameMode = x.gameMode
    ∧ (durabilityStep x).progression = x.progression
    ∧ (durabilityStep x).coins = x.coins
    ∧ (durabilityStep x).gems = x.gems
    ∧ (durabilityStep x).shinyGems = x.shinyGems
    ∧ (durabilityStep x).knowledgeStreak = x.knowledgeStreak := by
  have hW :
      (durabilityStepW x).playerStats.hp = x.playerStats.hp
      ∧ (durabilityStepW x).playerStats.maxHp = x.playerStats.maxHp
      ∧ (durabilityStepW x).inCombat = x.inCombat
      ∧ (durabilityStepW x).currentEnemy = x.currentEnemy
      ∧ (durabilityStepW x).statistics = x.statistics
      ∧ (durabilityStepW x).adventureSkills = x.adventureSkills
      ∧ (durabilityStepW x).hasUsedRevival = x.hasUsedRevival
      ∧ (durabilityStepW x).gameMode = x.gameMode
      ∧ (durabilityStepW x).progression = x.progression
      ∧ (durabilityStepW x).coins = x.coins
      ∧ (durabilityStepW x).gems = x.gems
      ∧ (durabilityStepW x).shinyGems = x.shinyGems
      ∧ (durabilityStepW x).knowledgeStreak = x.knowledgeStreak := by
    unfold durabilityStepW
    rcases hw : x.inventory.currentWeapon with _ | w
    · simp
    · dsimp only
      split_ifs <;> simp
  have hA : ∀ y : GameState,
      (durabilityStepA y).playerStats.hp = y.playerStats.hp
      ∧ (durabilityStepA y).playerStats.maxHp = y.playerStats.maxHp
      ∧ (durabilityStepA y).inCombat = y.inCombat
      ∧ (durabilityStepA y).currentEnemy = y.currentEnemy
      ∧ (durabilityStepA y).statistics = y.statistics
      ∧ (durabilityStepA y).adventureSkills = y.adventureSkills
      ∧ (durabilityStepA y).hasUsedRevival = y.hasUsedRevival
      ∧ (durabilityStepA y).gameMode = y.gameMode
      ∧ (durabilityStepA y).progression = y.progression
      ∧ (durabilityStepA y).coins = y.coins
      ∧ (durabilityStepA y).gems = y.gems
      ∧ (durabilityStepA y).shinyGems = y.shinyGems
      ∧ (durabilityStepA y).knowledgeStreak = y.knowledgeStreak := by
    intro y
    unfold durabilityStepA
    rcases ha : y.inventory.currentArmor with _ | a
    · simp
    · dsimp only
      split_ifs <;> simp
  unfold durabilityStep
  obtain ⟨w1, w2, w3, w4, w5, w6, w7, w8, w9, w10, w11, w12, w13⟩ := hW
  obtain ⟨b1, b2, b3, b4, b5, b6, b7, b8, b9, b10, b11, b12, b13⟩ := hA (durabilityStepW x)
  exact ⟨b1.trans w1, b2.trans w2, b3.trans w3, b4.trans w4, b5.trans w5, b6.trans w6,
    b7.trans w7, b8.trans w8, b9.trans w9, b10.trans w10, b11.trans w11, b12.trans w12,
    b13.trans w13⟩

theorem wrongDamageFx_phoenixUsed (enemy : Enemy) (x : GameState) :
    (wrongDamageFx enemy x).2.1.phoenixUsed = x.adventureSkills.skillEffects.phoenixUsed := by
  unfold wrongDamageFx
  rcases h : x.adventureSkills.selectedSkill with _ | t
  · simp [h]
  · cases t <;> simp [h] <;> split_ifs <;> rfl

theorem wrongDamageFx_divineUsed (enemy : Enemy) (x : GameState) :
    (wrongDamageFx enemy x).2.1.divineProtectionUsed
      = x.adventureSkills.skillEffects.divineProtectionUsed := by
  unfold wrongDamageFx
  rcases h : x.adventureSkills.selectedSkill with _ | t
  · simp [h]
  · cases t <;> simp [h] <;> split_ifs <;> rfl

theorem applyFallback_cases (x : GameState) :
    ((x.adventureSkills.selectedSkill = some AdvSkillType.phoenix
        ∧ x.adventureSkills.skillEffects.phoenixUsed = false) →
      (applyFallback x).playerStats.hp = Int.floor ((x.playerStats.maxHp : ℚ) * (1/2))
      ∧ (applyFallback x).adventureSkills.skillEffects.phoenixUsed = true
      ∧ (applyFallback x).adventureSkills.skillEffects.divineProtectionUsed
          = x.adventureSkills.skillEffects.divineProtectionUsed
      ∧ (applyFallback x).hasUsedRevival = x.hasUsedRevival
      ∧ (applyFallback x).statistics.totalDeaths = x.statistics.totalDeaths
      ∧ (applyFallback x).statistics.revivals = x.statistics.revivals
      ∧ (applyFallback x).inCombat = x.inCombat
      ∧ (applyFallback x).currentEnemy = x.currentEnemy
      ∧ (applyFallback x).gameMode = x.gameMode)
    ∧ (¬(x.adventureSkills.selectedSkill = some AdvSkillType.phoenix
          ∧ x.adventureSkills.skillEffects.phoenixUsed = false)
        ∧ (x.adventureSkills.selectedSkill = some AdvSkillType.divineProtection
          ∧ x.adventureSkills.skillEffects.divineProtectionUsed = false) →
      (applyFallback x).playerStats.hp = 1
      ∧ (applyFallback x).adventureSkills.skillEffects.divineProtectionUsed = true
      ∧ (applyFallback x).adventureSkills.skillEffects.phoenixUsed
          = x.adventureSkills.skillEffects.phoenixUsed
      ∧ (applyFallback x).hasUsedRevival = x.hasUsedRevival
      ∧ (applyFallback x).statistics.totalDeaths = x.statistics.totalDeaths
      ∧ (applyFallback x).statistics.revivals = x.statistics.revivals
      ∧ (applyFallback x).inCombat = x.inCombat
      ∧ (applyFallback x).currentEnemy = x.currentEnemy
      ∧ (applyFallback x).gameMode = x.gameMode)
    ∧ (¬(x.adventureSkills.selectedSkill = some AdvSkillType.phoenix
          ∧ x.adventureSkills.skillEffects.phoenixUsed = false)
        ∧ ¬(x.adventureSkills.selectedSkill = some AdvSkillType.divineProtection
          ∧ x.adventureSkills.skillEffects.divineProtectionUsed = false)
        ∧ x.hasUsedRevival = false →
      (applyFallback x).playerStats.hp = Int.floor ((x.playerStats.maxHp : ℚ) * (1/2))
      ∧ (applyFallback x).hasUsedRevival = true
      ∧ (applyFallback x).statistics.revivals = x.statistics.revivals + 1
      ∧ (applyFallback x).adventureSkills.skillEffects.phoenixUsed
          = x.adventureSkills.skillEffects.phoenixUsed
      ∧ (applyFallback x).adventureSkills.skillEffects.divineProtectionUsed
          = x.adventureSkills.skillEffects.divineProtectionUsed
      ∧ (applyFallback x).statistics.totalDeaths = x.statistics.totalDeaths
      ∧ (applyFallback x).inCombat = x.inCombat
      ∧ (applyFallback x).currentEnemy = x.currentEnemy
      ∧ (applyFallback x).gameMode = x.gameMode)
    ∧ (¬(x.adventureSkills.selectedSkill = some AdvSkillType.phoenix
          ∧ x.adventureSkills.skillEffects.phoenixUsed = false)
        ∧ ¬(x.adventureSkills.selectedSkill = some AdvSkillType.divineProtection
          ∧ x.adventureSkills.skillEffects.divineProtectionUsed = false)
        ∧ x.hasUsedRevival = true →
      (applyFallback x).statistics.totalDeaths = x.statistics.totalDeaths + 1
      ∧ (applyFallback x).inCombat = false
      ∧ (applyFallback x).currentEnemy = none
      ∧ (applyFallback x).playerStats.hp = x.playerStats.maxHp
      ∧ (applyFallback x).statistics.revivals = x.statistics.revivals
      ∧ (applyFallback x).hasUsedRevival = x.hasUsedRevival
      ∧ (applyFallback x).adventureSkills = resetAdventureSkills
      ∧ (x.gameMode.current = GameModeKind.survival →
          (applyFallback x).gameMode.survivalLives = x.gameMode.survivalLives - 1)
      ∧ (¬(x.gameMode.current = GameModeKind.survival) →
          (applyFallback x).gameMode = x.gameMode)) := by
  refine ⟨?_, ?_, ?_, ?_⟩
  · intro h
    unfold applyFallback
    rw [if_pos h]
    exact ⟨rfl, rfl, rfl, rfl, rfl, rfl, rfl, rfl, rfl⟩
  · rintro ⟨h1, h2⟩
    unfold applyFallback
    rw [if_neg h1, if_pos h2]
    exact ⟨rfl, rfl, rfl, rfl, rfl, rfl, rfl, rfl, rfl⟩
  · rintro ⟨h1, h2, h3⟩
    unfold applyFallback
    rw [if_neg h1, if_neg h2, if_pos h3]
    exact ⟨rfl, rfl, rfl, rfl, rfl, rfl, rfl, rfl, rfl⟩
  · rintro ⟨h1, h2, h3⟩
    unfold applyFallback
    rw [if_neg h1, if_neg h2, if_neg (by simp [h3])]
    dsimp only
    refine ⟨?_, rfl, rfl, ?_, ?_, ?_, rfl, ?_, ?_⟩
    · split_ifs <;> rfl
    · split_ifs <;> rfl
    · split_ifs <;> rfl
    · split_ifs <;> rfl
    · intro hsur
      rw [if_pos hsur]
    · intro hsur
      rw [if_neg hsur]

set_option maxHeartbeats 1600000 in
theorem attackOnWrong_lethal (enemy : Enemy) (x : GameState)
    (hdmg : 0 < wrongDamage enemy x)
    (hlethal : x.playerStats.hp - wrongDamage enemy x ≤ 0) :
    ((x.adventureSkills.selectedSkill = some AdvSkillType.phoenix
        ∧ x.adventureSkills.skillEffects.phoenixUsed = false) →
      (attackOnWrong enemy x).playerStats.hp
          = Int.floor ((x.playerStats.maxHp : ℚ) * (1/2))
      ∧ (attackOnWrong enemy x).adventureSkills.skillEffects.phoenixUsed = true
      ∧ (attackOnWrong enemy x).adventureSkills.skillEffects.divineProtectionUsed
          = x.adventureSkills.skillEffects.divineProtectionUsed
      ∧ (attackOnWrong enemy x).hasUsedRevival = x.hasUsedRevival
      ∧ (attackOnWrong enemy x).statistics.totalDeaths = x.statistics.totalDeaths
      ∧ (attackOnWrong enemy x).statistics.revivals = x.statistics.revivals
      ∧ (attackOnWrong enemy x).inCombat = x.inCombat
      ∧ (attackOnWrong enemy x).currentEnemy = x.currentEnemy
      ∧ (attackOnWrong enemy x).gameMode = x.gameMode)
    ∧ (¬(x.adventureSkills.selectedSkill = some AdvSkillType.phoenix
          ∧ x.adventureSkills.skillEffects.phoenixUsed = false)
        ∧ (x.adventureSkills.selectedSkill = some AdvSkillType.divineProtection
          ∧ x.adventureSkills.skillEffects.divineProtectionUsed = false) →
      (attackOnWrong enemy x).playerStats.hp = 1
      ∧ (attackOnWrong enemy x).adventureSkills.skillEffects.divineProtectionUsed = true
      ∧ (attackOnWrong enemy x).adventureSkills.skillEffects.phoenixUsed
          = x.adventureSkills.skillEffects.phoenixUsed
      ∧ (attackOnWrong enemy x).hasUsedRevival = x.hasUsedRevival
      ∧ (attackOnWrong enemy x).statistics.totalDeaths = x.statistics.totalDeaths
      ∧ (attackOnWrong enemy x).statistics.revivals = x.statistics.revivals
      ∧ (attackOnWrong enemy x).inCombat = x.inCombat
      ∧ (attackOnWrong enemy x).currentEnemy = x.currentEnemy
      ∧ (attackOnWrong enemy x).gameMode = x.gameMode)
    ∧ (¬(x.adventureSkills.selectedSkill = some AdvSkillType.phoenix
          ∧ x.adventureSkills.skillEffects.phoenixUsed = false)
        ∧ ¬(x.adventureSkills.selectedSkill = some AdvSkillType.divineProtection
          ∧ x.adventureSkills.skillEffects.divineProtectionUsed = false)
        ∧ x.hasUsedRevival = false →
      (attackOnWrong enemy x).playerStats.hp
          = Int.floor ((x.playerStats.maxHp : ℚ) * (1/2))
      ∧ (attackOnWrong enemy x).hasUsedRevival = true
      ∧ (attackOnWrong enemy x).statistics.revivals = x.statistics.revivals + 1
      ∧ (attackOnWrong enemy x).adventureSkills.skillEffects.phoenixUsed
          = x.adventureSkills.skillEffects.phoenixUsed
      ∧ (attackOnWrong enemy x).adventureSkills.skillEffects.divineProtectionUsed
          = x.adventureSkills.skillEffects.divineProtectionUsed
      ∧ (attackOnWrong enemy x).statistics.totalDeaths = x.statistics.totalDeaths
      ∧ (attackOnWrong enemy x).inCombat = x.inCombat
      ∧ (attackOnWrong enemy x).currentEnemy = x.currentEnemy
      ∧ (attackOnWrong enemy x).gameMode = x.gameMode)
    ∧ (¬(x.adventureSkills.selectedSkill = some AdvSkillType.phoenix
          ∧ x.adventureSkills.skillEffects.phoenixUsed = false)
        ∧ ¬(x.adventureSkills.selectedSkill = some AdvSkillType.divineProtection
          ∧ x.adventureSkills.skillEffects.divineProtectionUsed = false)
        ∧ x.hasUsedRevival = true →
      (attackOnWrong enemy x).statistics.totalDeaths = x.statistics.totalDeaths + 1
      ∧ (attackOnWrong enemy x).inCombat = false
      ∧ (attackOnWrong enemy x).currentEnemy = none
      ∧ (attackOnWrong enemy x).playerStats.hp = x.playerStats.maxHp
      ∧ (attackOnWrong enemy x).statistics.revivals = x.statistics.revivals
      ∧ (attackOnWrong enemy x).hasUsedRevival = x.hasUsedRevival
      ∧ (attackOnWrong enemy x).adventureSkills = resetAdventureSkills
      ∧ (x.gameMode.current = GameModeKind.survival →
          (attackOnWrong enemy x).gameMode.survivalLives = x.gameMode.survivalLives - 1)
      ∧ (¬(x.gameMode.current = GameModeKind.survival) →
          (attackOnWrong enemy x).gameMode = x.gameMode)) := by
  unfold attackOnWrong
  dsimp only
  split_ifs with h1 h2
  · refine ⟨?_, ?_, ?_, ?_⟩
    · rintro ⟨ha, hb⟩
      obtain ⟨c1, c2, c3, c4, c5, c6, c7, c8, c9⟩ :=
        (applyFallback_cases (wrongHitState enemy x)).1
          ⟨ha, (wrongDamageFx_phoenixUsed enemy x).trans hb⟩
      exact ⟨c1, c2, c3.trans (wrongDamageFx_divineUsed enemy x), c4, c5, c6, c7, c8, c9⟩
    · rintro ⟨ha, hb, hb2⟩
      obtain ⟨c1, c2, c3, c4, c5, c6, c7, c8, c9⟩ :=
        (applyFallback_cases (wrongHitState enemy x)).2.1
          ⟨fun hcon => ha ⟨hcon.1, (wrongDamageFx_phoenixUsed enemy x).symm.trans hcon.2⟩,
           hb, (wrongDamageFx_divineUsed enemy x).trans hb2⟩
      exact ⟨c1, c2, c3.trans (wrongDamageFx_phoenixUsed enemy x), c4, c5, c6, c7, c8, c9⟩
    · rintro ⟨ha, hb, hc⟩
      obtain ⟨c1, c2, c3, c4, c5, c6, c7, c8, c9⟩ :=
        (applyFallback_cases (wrongHitState enemy x)).2.2.1
          ⟨fun hcon => ha ⟨hcon.1, (wrongDamageFx_phoenixUsed enemy x).symm.trans hcon.2⟩,
           fun hcon => hb ⟨hcon.1, (wrongDamageFx_divineUsed enemy x).symm.trans hcon.2⟩,
           hc⟩
      exact ⟨c1, c2, c3,
        c4.trans (wrongDamageFx_phoenixUsed enemy x),
        c5.trans (wrongDamageFx_divineUsed enemy x), c6, c7, c8, c9⟩
    · rintro ⟨ha, hb, hc⟩
      obtain ⟨c1, c2, c3, c4, c5, c6, c7, c8, c9⟩ :=
        (applyFallback_cases (wrongHitState enemy x)).2.2.2
          ⟨fun hcon => ha ⟨hcon.1, (wrongDamageFx_phoenixUsed enemy x).symm.trans hcon.2⟩,
           fun hcon => hb ⟨hcon.1, (wrongDamageFx_divineUsed enemy x).symm.trans hcon.2⟩,
           hc⟩
      exact ⟨c1, c2, c3, c4, c5, c6, c7, c8, c9⟩
  · exact absurd hlethal h2
  · exact absurd hdmg h1

set_option maxHeartbeats 1600000 in
/-- C1 (amended): in the combat answer transition, when an incorrect
answer reduces player HP to 0 or below, the fallback chain fires in strict
priority order — (1) an unused phoenix skill restores HP to 50% of max and
is marked used; else (2) an unused divine-protection skill sets HP to 1
and is marked used; else (3) the unused free revival restores 50% HP, is
marked used and increments the revival counter; else (4) the defeat
transition occurs (death counter incremented, survival lives decremented
in survival mode, combat cleared to Idle, HP restored to max).  At most
one fallback consumes per lethal hit — each branch leaves the other
fallbacks' used-flags untouched — and a lethal hit after all fallbacks are
exhausted always produces the defeat transition.  (The source claim said
at most one fallback consumes per encounter; across several lethal hits of
one encounter the code can consume a skill fallback and then the free
revival, see the counterexample.) -/
theorem c1_fallback_chain (s : GameState) (category : Option String) (rng : AttackRng)
    (enemy : Enemy) (hce : s.currentEnemy = some enemy) (hic : s.inCombat = true)
    (hdmg : 0 < wrongDamage enemy s)
    (hlethal : s.playerStats.hp - wrongDamage enemy s ≤ 0) :
    ((s.adventureSkills.selectedSkill = some AdvSkillType.phoenix
        ∧ s.adventureSkills.skillEffects.phoenixUsed = false) →
      (attack false category rng s).playerStats.hp
          = Int.floor ((s.playerStats.maxHp : ℚ) * (1/2))
      ∧ (attack false category rng s).adventureSkills.skillEffects.phoenixUsed = true
      ∧ (attack false category rng s).adventureSkills.skillEffects.divineProtectionUsed
          = s.adventureSkills.skillEffects.divineProtectionUsed
      ∧ (attack false category rng s).hasUsedRevival = s.hasUsedRevival
      ∧ (attack false category rng s).statistics.totalDeaths = s.statistics.totalDeaths
      ∧ (attack false category rng s).statistics.revivals = s.statistics.revivals
      ∧ (attack false category rng s).inCombat = true
      ∧ (attack false category rng s).currentEnemy = s.currentEnemy
      ∧ (attack false category rng s).gameMode = s.gameMode)
    ∧ (¬(s.adventureSkills.selectedSkill = some AdvSkillType.phoenix
          ∧ s.adventureSkills.skillEffects.phoenixUsed = false)
        ∧ (s.adventureSkills.selectedSkill = some AdvSkillType.divineProtection
          ∧ s.adventureSkills.skillEffects.divineProtectionUsed = false) →
      (attack false category rng s).playerStats.hp = 1
      ∧ (attack false category rng s).adventureSkills.skillEffects.divineProtectionUsed = true
      ∧ (attack false category rng s).adventureSkills.skillEffects.phoenixUsed
          = s.adventureSkills.skillEffects.phoenixUsed
      ∧ (attack false category rng s).hasUsedRevival = s.hasUsedRevival
      ∧ (attack false category rng s).statistics.totalDeaths = s.statistics.totalDeaths
      ∧ (attack false category rng s).statistics.revivals = s.statistics.revivals
      ∧ (attack false category rng s).inCombat = true
      ∧ (attack false category rng s).currentEnemy = s.currentEnemy
      ∧ (attack false category rng s).gameMode = s.gameMode)
    ∧ (¬(s.adventureSkills.selectedSkill = some AdvSkillType.phoenix
          ∧ s.adventureSkills.skillEffects.phoenixUsed = false)
        ∧ ¬(s.adventureSkills.selectedSkill = some AdvSkillType.divineProtection
          ∧ s.adventureSkills.skillEffects.divineProtectionUsed = false)
        ∧ s.hasUsedRevival = false →
      (attack false category rng s).playerStats.hp
          = Int.floor ((s.playerStats.maxHp : ℚ) * (1/2))
      ∧ (attack false category rng s).hasUsedRevival = true
      ∧ (attack false category rng s).statistics.revivals = s.statistics.revivals + 1
      ∧ (attack false category rng s).adventureSkills.skillEffects.phoenixUsed
          = s.adventureSkills.skillEffects.phoenixUsed
      ∧ (attack false category rng s).adventureSkills.skillEffects.divineProtectionUsed
          = s.adventureSkills.skillEffects.divineProtectionUsed
      ∧ (attack false category rng s).statistics.totalDeaths = s.statistics.totalDeaths
      ∧ (attack false category rng s).inCombat = true
      ∧ (attack false category rng s).currentEnemy = s.currentEnemy
      ∧ (attack false category rng s).gameMode = s.gameMode)
    ∧ (¬(s.adventureSkills.selectedSkill = some AdvSkillType.phoenix
          ∧ s.adventureSkills.skillEffects.phoenixUsed = false)
        ∧ ¬(s.adventureSkills.selectedSkill = some AdvSkillType.divineProtection
          ∧ s.adventureSkills.skillEffects.divineProtectionUsed = false)
        ∧ s.hasUsedRevival = true →
      (attack false category rng s).statistics.totalDeaths = s.statistics.totalDeaths + 1
      ∧ (attack false category rng s).inCombat = false
      ∧ (attack false category rng s).currentEnemy = none
      ∧ (attack false category rng s).playerStats.hp = s.playerStats.maxHp
      ∧ (attack false category rng s).statistics.revivals = s.statistics.revivals
      ∧ (attack false category rng s).hasUsedRevival = s.hasUsedRevival
      ∧ (attack false category rng s).adventureSkills = resetAdventureSkills
      ∧ (s.gameMode.current = GameModeKind.survival →
          (attack false category rng s).gameMode.survivalLives
            = s.gameMode.survivalLives - 1)
      ∧ (¬(s.gameMode.current = GameModeKind.survival) →
          (attack false category rng s).gameMode = s.gameMode)) := by
  have hred : attack false category rng s
      = durabilityStep (attackOnWrong enemy (attackEntryState false category s)) := by
    unfold attack
    rw [hce]
    dsimp only
    rw [if_pos hic]
    rfl
  simp only [hred]
  obtain ⟨p1, p2, p3, p4, p5, p6, p7, p8, p9, p10, p11, p12, p13⟩ :=
    durabilityStep_preserves (attackOnWrong enemy (attackEntryState false category s))
  have hstatD : (attackEntryState false category s).statistics.totalDeaths
      = s.statistics.totalDeaths := by cases category <;> rfl
  have hstatR : (attackEntryState false category s).statistics.revivals
      = s.statistics.revivals := by cases category <;> rfl
  obtain ⟨L1, L2, L3, L4⟩ :=
    attackOnWrong_lethal enemy (attackEntryState false category s) hdmg hlethal
  refine ⟨?_, ?_, ?_, ?_⟩
  · intro h
    have C := L1 h
    exact ⟨p1.trans C.1,
      (congrArg (fun z => z.skillEffects.phoenixUsed) p6).trans C.2.1,
      (congrArg (fun z => z.skillEffects.divineProtectionUsed) p6).trans C.2.2.1,
      p7.trans C.2.2.2.1,
      (congrArg (fun z => z.totalDeaths) p5).trans (C.2.2.2.2.1.trans hstatD),
      (congrArg (fun z => z.revivals) p5).trans (C.2.2.2.2.2.1.trans hstatR),
      (p3.trans C.2.2.2.2.2.2.1).trans hic,
      p4.trans C.2.2.2.2.2.2.2.1,
      p8.trans C.2.2.2.2.2.2.2.2⟩
  · intro h
    have C := L2 h
    exact ⟨p1.trans C.1,
      (congrArg (fun z => z.skillEffects.divineProtectionUsed) p6).trans C.2.1,
      (congrArg (fun z => z.skillEffects.phoenixUsed) p6).trans C.2.2.1,
      p7.trans C.2.2.2.1,
      (congrArg (fun z => z.totalDeaths) p5).trans (C.2.2.2.2.1.trans hstatD),
      (congrArg (fun z => z.revivals) p5).trans (C.2.2.2.2.2.1.trans hstatR),
      (p3.trans C.2.2.2.2.2.2.1).trans hic,
      p4.trans C.2.2.2.2.2.2.2.1,
      p8.trans C.2.2.2.2.2.2.2.2⟩
  · intro h
    have C := L3 h
    exact ⟨p1.trans C.1,
      p7.trans C.2.1,
      (congrArg (fun z => z.revivals) p5).trans (C.2.2.1.trans (by rw [hstatR])),
      (congrArg (fun z => z.skillEffects.phoenixUsed) p6).trans C.2.2.2.1,
      (congrArg (fun z => z.skillEffects.divineProtectionUsed) p6).trans C.2.2.2.2.1,
      (congrArg (fun z => z.totalDeaths) p5).trans (C.2.2.2.2.2.1.trans hstatD),
      (p3.trans C.2.2.2.2.2.2.1).trans hic,
      p4.trans C.2.2.2.2.2.2.2.1,
      p8.trans C.2.2.2.2.2.2.2.2⟩
  · intro h
    have C := L4 h
    exact ⟨(congrArg (fun z => z.totalDeaths) p5).trans (C.1.trans (by rw [hstatD])),
      p3.trans C.2.1,
      p4.trans C.2.2.1,
      p1.trans C.2.2.2.1,
      (congrArg (fun z => z.revivals) p5).trans (C.2.2.2.2.1.trans hstatR),
      p7.trans C.2.2.2.2.2.1,
      p6.trans C.2.2.2.2.2.2.1,
      fun hs => (congrArg (fun z => z.survivalLives) p8).trans (C.2.2.2.2.2.2.2.1 hs),
      fun hs => p8.trans (C.2.2.2.2.2.2.2.2 hs)⟩

/-- Witness for C1 at a concrete input: with no skill selected and the free
revival already used, a lethal hit produces the defeat transition (death
counter incremented, combat cleared, HP restored to max). -/
theorem c1_fallback_chain_witness :
    (attack false none
        ⟨1, 1, 1, 1, ⟨9, "dw", Rarity.common, 1, 1, 1, 1, 1, 1⟩,
          ⟨9, "da", Rarity.common, 1, 1, 1, 1, 1, 1⟩⟩
        { initialGameState with
          inCombat := true,
          currentEnemy := some ⟨"brute", 30, 500⟩,
          hasUsedRevival := true }).statistics.totalDeaths = 1
    ∧ (attack false none
        ⟨1, 1, 1, 1, ⟨9, "dw", Rarity.common, 1, 1, 1, 1, 1, 1⟩,
          ⟨9, "da", Rarity.common, 1, 1, 1, 1, 1, 1⟩⟩
        { initialGameState with
          inCombat := true,
          currentEnemy := some ⟨"brute", 30, 500⟩,
          hasUsedRevival := true }).inCombat = false
    ∧ (attack false none
        ⟨1, 1, 1, 1, ⟨9, "dw", Rarity.common, 1, 1, 1, 1, 1, 1⟩,
          ⟨9, "da", Rarity.common, 1, 1, 1, 1, 1, 1⟩⟩
        { initialGameState with
          inCombat := true,
          currentEnemy := some ⟨"brute", 30, 500⟩,
          hasUsedRevival := true }).playerStats.hp = 100 := by
  have h := (c1_fallback_chain
    { initialGameState with
      inCombat := true,
      currentEnemy := some ⟨"brute", 30, 500⟩,
      hasUsedRevival := true }
    none
    ⟨1, 1, 1, 1, ⟨9, "dw", Rarity.common, 1, 1, 1, 1, 1, 1⟩,
      ⟨9, "da", Rarity.common, 1, 1, 1, 1, 1, 1⟩⟩
    ⟨"brute", 30, 500⟩ rfl rfl (by decide) (by decide)).2.2.2
    (by decide)
  exact ⟨h.1, h.2.1, h.2.2.2.1⟩

/-- C1 counterexample to the claim as stated ("at most one fallback
consumes per encounter"): with the phoenix skill selected, two successive
lethal hits inside one encounter consume the phoenix fallback and then the
free revival fallback — two fallbacks consumed while the encounter stays
active throughout (no defeat, `inCombat` never cleared). -/
theorem c1_per_encounter_counterexample :
    (let rng : AttackRng :=
      ⟨1, 1, 1, 1, ⟨9, "dw", Rarity.common, 1, 1, 1, 1, 1, 1⟩,
        ⟨9, "da", Rarity.common, 1, 1, 1, 1, 1, 1⟩⟩
    let s0 : GameState :=
      { initialGameState with
        inCombat := true,
        currentEnemy := some ⟨"brute", 50, 1000⟩,
        adventureSkills := ⟨some AdvSkillType.phoenix, [], false, resetSkillEffects⟩ }
    let s1 := attack false none rng s0
    let s2 := attack false none rng s1
    s1.adventureSkills.skillEffects.phoenixUsed = true
    ∧ s1.hasUsedRevival = false
    ∧ s1.inCombat = true
    ∧ s2.adventureSkills.skillEffects.phoenixUsed = true
    ∧ s2.hasUsedRevival = true
    ∧ s2.inCombat = true
    ∧ s2.statistics.revivals = 1) := by
  norm_num [attack, attackEntryState, attackOnWrong, wrongHitState, wrongDamageFx,
    applyFallback, durabilityStep, durabilityStepW, durabilityStepA, initialGameState,
    resetSkillEffects, wrongDamage,
    show AdvSkillType.phoenix ≠ AdvSkillType.divineProtection from by decide,
    show GameModeKind.normal ≠ GameModeKind.survival from by decide]


/-- C6: chest rarity selection walks the cumulative weight prefix sums in
the order common, rare, epic, legendary, mythical and selects the first
tier whose cumulative sum is at least the draw; for the weight vector
[60, 25, 10, 4, 1] this is the threshold chain at 60/85/95/99, a draw of
exactly 0 resolves to common, and a draw of 99.999 resolves to mythical. -/
theorem c6_chest_rarity_selection :
    (∀ r : ℚ, r < 100 → selectRarity [60, 25, 10, 4, 1] r =
      if r ≤ 60 then Rarity.common
      else if r ≤ 85 then Rarity.rare
      else if r ≤ 95 then Rarity.epic
      else if r ≤ 99 then Rarity.legendary
      else Rarity.mythical)
    ∧ selectRarity [60, 25, 10, 4, 1] 0 = Rarity.common
    ∧ selectRarity [60, 25, 10, 4, 1] (99999/1000) = Rarity.mythical := by
  have hgen : ∀ r : ℚ, r < 100 → selectRarity [60, 25, 10, 4, 1] r =
      if r ≤ 60 then Rarity.common
      else if r ≤ 85 then Rarity.rare
      else if r ≤ 95 then Rarity.epic
      else if r ≤ 99 then Rarity.legendary
      else Rarity.mythical := by
    intro r hr
    show selectRarityGo [60, 25, 10, 4, 1] r 0 0 = _
    simp only [selectRarityGo, rarityOfIndex]
    norm_num
    split_ifs <;> first | rfl | linarith
  refine ⟨hgen, ?_, ?_⟩
  · rw [hgen 0 (by norm_num)]; norm_num
  · rw [hgen (99999/1000) (by norm_num)]; norm_num

/-- Witness for C6: a concrete draw of 90 (inside `[0, 100)`) resolves to
epic through the general characterisation. -/
theorem c6_chest_rarity_selection_witness :
    (90 : ℚ) < 100 ∧ selectRarity [60, 25, 10, 4, 1] 90 = Rarity.epic := by
  refine ⟨by norm_num, ?_⟩
  rw [c6_chest_rarity_selection.1 90 (by norm_num)]
  norm_num

/-- C10: every `mineGem` call yields exactly one unit of currency —
either (1 gem, 0 shiny gems) or (0 gems, 1 shiny gem) — and the returned
pair is exactly the delta applied to the gem and shiny-gem counters, the
mining counters and the statistics. -/
theorem c10_mine_gem_exactly_one (roll : ℚ) (s : GameState) :
    ((mineGem roll s).1 = (1, 0) ∨ (mineGem roll s).1 = (0, 1))
    ∧ (mineGem roll s).2.gems = s.gems + (mineGem roll s).1.1
    ∧ (mineGem roll s).2.shinyGems = s.shinyGems + (mineGem roll s).1.2
    ∧ (mineGem roll s).2.mining.totalGemsMined
        = s.mining.totalGemsMined + (mineGem roll s).1.1
    ∧ (mineGem roll s).2.mining.totalShinyGemsMined
        = s.mining.totalShinyGemsMined + (mineGem roll s).1.2
    ∧ (mineGem roll s).2.statistics.gemsEarned
        = s.statistics.gemsEarned + (mineGem roll s).1.1
    ∧ (mineGem roll s).2.statistics.shinyGemsEarned
        = s.statistics.shinyGemsEarned + (mineGem roll s).1.2
    ∧ (mineGem roll s).1.1 + (mineGem roll s).1.2 = 1 := by
  unfold mineGem
  dsimp only
  split_ifs <;> simp

/-- C7: insufficient-resource failures are total, silent and atomic:
`openChest` returns `null` with the state unchanged when coins are short
of the cost; `upgradeWeapon` / `upgradeArmor` are no-ops when gems are
short of the found item's upgrade cost; `exchangeShinyGems` and
`purchaseRelic` report `false` and leave the state unchanged when the
currency is short — in every case by a guarded return, never an
exception. -/
theorem c7_insufficient_resource_atomic :
    (∀ (cost : Int) (rng : ChestRng) (s : GameState),
      s.coins < cost → openChest cost rng s = (none, s))
    ∧ (∀ (weaponId : Nat) (s : GameState) (w : Weapon),
      s.inventory.weapons.find? (fun x => x.id == weaponId) = some w →
      s.gems < w.upgradeCost → upgradeWeapon weaponId s = s)
    ∧ (∀ (armorId : Nat) (s : GameState) (a : Armor),
      s.inventory.armor.find? (fun x => x.id == armorId) = some a →
      s.gems < a.upgradeCost → upgradeArmor armorId s = s)
    ∧ (∀ (amount : Int) (s : GameState),
      s.shinyGems < amount → exchangeShinyGems amount s = (false, s))
    ∧ (∀ (relicId : Nat) (s : GameState) (r : RelicItem),
      s.yojefMarket.items.find? (fun x => x.id == relicId) = some r →
      s.gems < r.cost → purchaseRelic relicId s = (false, s)) := by
  refine ⟨?_, ?_, ?_, ?_, ?_⟩
  · intro cost rng s h
    unfold openChest
    rw [if_pos h]
  · intro weaponId s w hfind h
    unfold upgradeWeapon
    rw [hfind]
    dsimp only
    rw [if_pos h]
  · intro armorId s a hfind h
    unfold upgradeArmor
    rw [hfind]
    dsimp only
    rw [if_pos h]
  · intro amount s h
    unfold exchangeShinyGems
    rw [if_pos h]
  · intro relicId s r hfind h
    unfold purchaseRelic
    rw [hfind]
    dsimp only
    rw [if_pos h]

/-- Witness for C7: each of the five failure branches at a concrete
under-funded state. -/
theorem c7_insufficient_resource_atomic_witness :
    (let rng : ChestRng := ⟨[], 0, 0, 0, fun _ => 0, fun _ => 0,
        fun _ _ _ => ⟨0, "w", Rarity.common, 1, 1, 1, 1, 1, 1⟩,
        fun _ _ _ => ⟨0, "a", Rarity.common, 1, 1, 1, 1, 1, 1⟩, 0, 0⟩
     openChest 1000 rng initialGameState = (none, initialGameState))
    ∧ (let w0 : Weapon := ⟨1, "sword", Rarity.common, 5, 1, 5, 5, 1000000, 5⟩
       let sW : GameState := { initialGameState with
         inventory := { initialGameState.inventory with weapons := [w0] } }
       upgradeWeapon 1 sW = sW)
    ∧ (let a0 : Armor := ⟨1, "mail", Rarity.common, 5, 1, 5, 5, 1000000, 5⟩
       let sA : GameState := { initialGameState with
         inventory := { initialGameState.inventory with armor := [a0] } }
       upgradeArmor 1 sA = sA)
    ∧ exchangeShinyGems 1 initialGameState = (false, initialGameState)
    ∧ (let r0 : RelicItem := ⟨1, "relic", RelicKind.weapon, 1, some 10, none, 1000000, 100⟩
       let sR : GameState := { initialGameState with
         yojefMarket := { initialGameState.yojefMarket with items := [r0] } }
       purchaseRelic 1 sR = (false, sR)) := by
  refine ⟨?_, ?_, ?_, ?_, ?_⟩
  · exact c7_insufficient_resource_atomic.1 1000 _ initialGameState (by decide)
  · exact c7_insufficient_resource_atomic.2.1 1 _ _ rfl (by decide)
  · exact c7_insufficient_resource_atomic.2.2.1 1 _ _ rfl (by decide)
  · exact c7_insufficient_resource_atomic.2.2.2.1 1 initialGameState (by decide)
  · exact c7_insufficient_resource_atomic.2.2.2.2 1 _ _ rfl (by decide)

/-- C5: daily reward streak behaviour of the load-time reconciliation and
of `claimDailyReward`: elapsed time of exactly one day increments the
streak; two or more days reset it to 1; a first-ever load seeds streak 1
with the first-time reward (75 coins, 5 gems); the daily block of the full
reconciliation is exactly `reconcileDaily`; and claiming with no pending
reward is rejected with the state unchanged. -/
theorem c5_daily_streak :
    (∀ (now : ℚ) (d : DailyRewards) (t : ℚ), d.lastClaimDate = some t →
      Int.floor ((now - t) / 86400000) = 1 →
      (reconcileDaily now d).currentStreak = d.currentStreak + 1)
    ∧ (∀ (now : ℚ) (d : DailyRewards) (t : ℚ), d.lastClaimDate = some t →
      2 ≤ Int.floor ((now - t) / 86400000) →
      (reconcileDaily now d).currentStreak = 1)
    ∧ (∀ (now : ℚ) (d : DailyRewards), d.lastClaimDate = none →
      (reconcileDaily now d).currentStreak = 1
      ∧ (reconcileDaily now d).availableReward
          = some ⟨1, 75, 5, none, false, none⟩)
    ∧ (∀ (now : ℚ) (f : List RelicItem) (s : GameState),
      (reconcile now f s).dailyRewards = reconcileDaily now s.dailyRewards)
    ∧ (∀ (now : ℚ) (item : Sum Weapon Armor) (s : GameState),
      s.dailyRewards.availableReward = none →
      claimDailyReward now item s = (false, s)) := by
  refine ⟨?_, ?_, ?_, ?_, ?_⟩
  · intro now d t ht h1
    unfold reconcileDaily
    rw [ht]
    dsimp only
    rw [h1]
    norm_num
  · intro now d t ht h2
    unfold reconcileDaily
    rw [ht]
    dsimp only
    have hge : (1 : Int) ≤ Int.floor ((now - t) / 86400000) := by linarith
    have hne : ¬ Int.floor ((now - t) / 86400000) = 1 := by
      intro hh
      rw [hh] at h2
      exact absurd h2 (by norm_num)
    rw [if_pos hge, if_neg hne]
  · intro now d hnone
    unfold reconcileDaily
    rw [hnone]
    exact ⟨rfl, rfl⟩
  · intro now f s
    rfl
  · intro now item s h
    unfold claimDailyReward
    rw [h]

/-- Witness for C5: a one-day gap at streak 3 bumps the streak to 4, a
two-day gap resets it to 1, a first-ever load seeds streak 1, and claiming
on the fresh state (no pending reward) is rejected. -/
theorem c5_daily_streak_witness :
    (let d1 : DailyRewards := ⟨some 0, 3, 3, none, []⟩
     (reconcileDaily 86400000 d1).currentStreak = 3 + 1)
    ∧ (let d1 : DailyRewards := ⟨some 0, 3, 3, none, []⟩
       (reconcileDaily 172800000 d1).currentStreak = 1)
    ∧ (let d0 : DailyRewards := ⟨none, 0, 0, none, []⟩
       (reconcileDaily 5 d0).currentStreak = 1
       ∧ (reconcileDaily 5 d0).availableReward = some ⟨1, 75, 5, none, false, none⟩)
    ∧ claimDailyReward 0 (Sum.inl ⟨0, "w", Rarity.common, 1, 1, 1, 1, 1, 1⟩)
        initialGameState = (false, initialGameState) := by
  refine ⟨?_, ?_, ?_, ?_⟩
  · exact c5_daily_streak.1 86400000 _ 0 rfl (by norm_num)
  · exact c5_daily_streak.2.1 172800000 _ 0 rfl (by norm_num)
  · exact c5_daily_streak.2.2.1 5 _ rfl
  · exact c5_daily_streak.2.2.2.2 0 _ initialGameState rfl

theorem reconcileOffline_idem (now : ℚ) (r : Nat) (p : OfflineProgress) :
    reconcileOffline now r (reconcileOffline now r p) = reconcileOffline now r p := by
  unfold reconcileOffline
  dsimp only
  split_ifs with h1
  · rfl
  · rfl

theorem reconcileGarden_inert (now : ℚ) (g : GardenOfGrowth)
    (hg : ¬(g.isPlanted = true ∧ 0 < g.waterHoursRemaining)) :
    reconcileGarden now g = g := by
  unfold reconcileGarden
  rw [if_neg hg]

theorem reconcileDaily_idem (now : ℚ) (d : DailyRewards)
    (hd : ∀ t : ℚ, d.lastClaimDate = some t → Int.floor ((now - t) / 86400000) ≠ 1) :
    reconcileDaily now (reconcileDaily now d) = reconcileDaily now d := by
  unfold reconcileDaily
  rcases hl : d.lastClaimDate with _ | t
  · simp [hl]
  · have hne := hd t hl
    by_cases h1 : (1 : Int) ≤ Int.floor ((now - t) / 86400000)
    · simp [hl, h1, hne, max_assoc]
    · simp [hl, h1]

theorem reconcileMarket_idem (now : ℚ) (f : List RelicItem) (m : YojefMarket) :
    reconcileMarket now f (reconcileMarket now f m) = reconcileMarket now f m := by
  unfold reconcileMarket
  by_cases h : m.nextRefresh < now
  · have h2 : ¬ now + 300000 < now := by linarith
    simp [h, h2]
  · simp [h]

theorem reconcileBuff_idem (now : ℚ) (sk : Skills) :
    reconcileBuff now (reconcileBuff now sk) = reconcileBuff now sk := by
  unfold reconcileBuff
  rcases hs : sk.activeMenuSkill with _ | ms
  · simp [hs]
  · by_cases h : ms.expiresAt < now
    · simp [hs, h]
    · simp [hs, h]

/-- C4 (amended): the load-time reconciliation is NOT idempotent in
general (see the counterexample: the garden block does not advance
`lastWatered`, and the daily block re-increments a one-day streak), but it
is idempotent for every snapshot on which the garden block is inactive
(not planted, or out of water) and the elapsed time since the last claim
does not floor to exactly one day: the offline, market, buff and
daily-reset blocks are individually idempotent. -/
theorem c4_reconcile_idempotent (now : ℚ) (f : List RelicItem) (s : GameState)
    (hg : ¬(s.gardenOfGrowth.isPlanted = true ∧ 0 < s.gardenOfGrowth.waterHoursRemaining))
    (hd : ∀ t : ℚ, s.dailyRewards.lastClaimDate = some t →
      Int.floor ((now - t) / 86400000) ≠ 1) :
    reconcile now f (reconcile now f s) = reconcile now f s := by
  unfold reconcile
  dsimp only
  rw [reconcileOffline_idem, reconcileGarden_inert now s.gardenOfGrowth hg,
    reconcileGarden_inert now s.gardenOfGrowth hg,
    reconcileDaily_idem now s.dailyRewards hd, reconcileMarket_idem, reconcileBuff_idem]

/-- Witness for C4: the fresh state (garden not planted, no claim date)
reconciled twice at time 0 equals the once-reconciled state. -/
theorem c4_reconcile_idempotent_witness :
    reconcile 0 [] (reconcile 0 [] initialGameState) = reconcile 0 [] initialGameState := by
  apply c4_reconcile_idempotent
  · intro h
    exact absurd h.1 (by simp [initialGameState])
  · intro t ht
    exact absurd ht (by simp [initialGameState])

/-- Counterexample to C4 as stated: a planted, watered garden at water 10
with 2 hours elapsed loses 2 water-hours on EVERY reconciliation pass with
the same `now` (the source never advances `lastWatered`), so the second
pass changes the state again (water 8 after one pass, 6 after two). -/
theorem c4_reconcile_not_idempotent_counterexample :
    (let g0 : GardenOfGrowth :=
      { isPlanted := true, plantedAt := some 0, lastWatered := some 0,
        waterHoursRemaining := 10, growthCm := 0, totalGrowthBonus := 0,
        seedCost := 1000, waterCost := 1000, maxGrowthCm := 100 }
     let s0 : GameState := { initialGameState with gardenOfGrowth := g0 }
     (reconcile 7200000 [] s0).gardenOfGrowth.waterHoursRemaining = 8
     ∧ (reconcile 7200000 [] (reconcile 7200000 [] s0)).gardenOfGrowth.waterHoursRemaining = 6
     ∧ reconcile 7200000 [] (reconcile 7200000 [] s0) ≠ reconcile 7200000 [] s0) := by
  dsimp only
  refine ⟨?_, ?_, ?_⟩
  · norm_num [reconcile, reconcileGarden, initialGameState, max_def, min_def]
  · norm_num [reconcile, reconcileGarden, initialGameState, max_def, min_def]
  · intro h
    have h2 := congrArg (fun z => z.gardenOfGrowth.waterHoursRemaining) h
    norm_num [reconcile, reconcileGarden, initialGameState, max_def, min_def] at h2

theorem addChestItem_coins (acc : GameState) (it : Sum Weapon Armor) :
    (addChestItem acc it).coins = acc.coins := by
  cases it <;> rfl

theorem addChestItem_gems (acc : GameState) (it : Sum Weapon Armor) :
    (addChestItem acc it).gems = acc.gems := by
  cases it <;> rfl

theorem addChestItem_shinyGems (acc : GameState) (it : Sum Weapon Armor) :
    (addChestItem acc it).shinyGems = acc.shinyGems := by
  cases it <;> rfl

theorem foldl_addChestItem_coins (its : List (Sum Weapon Armor)) (acc : GameState) :
    (its.foldl addChestItem acc).coins = acc.coins := by
  induction its generalizing acc with
  | nil => rfl
  | cons x xs ih => exact (ih (addChestItem acc x)).trans (addChestItem_coins acc x)

theorem foldl_addChestItem_gems (its : List (Sum Weapon Armor)) (acc : GameState) :
    (its.foldl addChestItem acc).gems = acc.gems := by
  induction its generalizing acc with
  | nil => rfl
  | cons x xs ih => exact (ih (addChestItem acc x)).trans (addChestItem_gems acc x)

theorem foldl_addChestItem_shinyGems (its : List (Sum Weapon Armor)) (acc : GameState) :
    (its.foldl addChestItem acc).shinyGems = acc.shinyGems := by
  induction its generalizing acc with
  | nil => rfl
  | cons x xs ih => exact (ih (addChestItem acc x)).trans (addChestItem_shinyGems acc x)

theorem applyFallback_currencies (x : GameState) :
    (applyFallback x).coins = x.coins ∧ (applyFallback x).gems = x.gems
    ∧ (applyFallback x).shinyGems = x.shinyGems := by
  unfold applyFallback
  dsimp only
  split_ifs <;> exact ⟨rfl, rfl, rfl⟩

theorem attackOnWrong_currencies (enemy : Enemy) (x : GameState) :
    (attackOnWrong enemy x).coins = x.coins ∧ (attackOnWrong enemy x).gems = x.gems
    ∧ (attackOnWrong enemy x).shinyGems = x.shinyGems := by
  unfold attackOnWrong
  dsimp only
  split_ifs
  · obtain ⟨c, g, sh⟩ := applyFallback_currencies (wrongHitState enemy x)
    exact ⟨c.trans rfl, g.trans rfl, sh.trans rfl⟩
  · exact ⟨rfl, rfl, rfl⟩
  · exact ⟨rfl, rfl, rfl⟩

set_option maxHeartbeats 1600000 in
theorem victoryTransition_currencies (rng : AttackRng) (x : GameState) :
    (victoryTransition rng x).coins = x.coins + (victoryRewards x).1
    ∧ (victoryTransition rng x).gems = x.gems + (victoryRewards x).2.1
    ∧ (victoryTransition rng x).shinyGems = x.shinyGems := by
  unfold victoryTransition
  dsimp only
  split_ifs <;> exact ⟨rfl, rfl, rfl⟩

set_option maxHeartbeats 1600000 in
theorem victoryRewards_nonneg (x : GameState) (hm : 0 ≤ x.knowledgeStreak.multiplier) :
    0 ≤ (victoryRewards x).1 ∧ 0 ≤ (victoryRewards x).2.1 := by
  unfold victoryRewards
  dsimp only
  have hc0 : (0 : Int)
      ≤ ⌊((10 + (x.zone : Int) * 2 : Int) : ℚ) * x.knowledgeStreak.multiplier⌋ := by
    apply Int.le_floor.mpr
    push_cast
    apply mul_nonneg _ hm
    positivity
  have hg0 : (0 : Int)
      ≤ ⌊((((x.zone / 5 : Nat) : Int) + 1 : Int) : ℚ) * x.knowledgeStreak.multiplier⌋ := by
    apply Int.le_floor.mpr
    push_cast
    apply mul_nonneg _ hm
    positivity
  generalize hA : (⌊((10 + (x.zone : Int) * 2 : Int) : ℚ) * x.knowledgeStreak.multiplier⌋ : Int)
    = c0 at hc0 ⊢
  generalize hB :
    (⌊((((x.zone / 5 : Nat) : Int) + 1 : Int) : ℚ) * x.knowledgeStreak.multiplier⌋ : Int)
    = g0 at hg0 ⊢
  have hcb : (0 : Int) ≤ ⌊(c0 : ℚ) * (5/4)⌋ := by
    apply Int.le_floor.mpr
    push_cast
    exact mul_nonneg (by exact_mod_cast hc0) (by norm_num)
  have hgb : (0 : Int) ≤ ⌊(g0 : ℚ) * (11/10)⌋ := by
    apply Int.le_floor.mpr
    push_cast
    exact mul_nonneg (by exact_mod_cast hg0) (by norm_num)
  rcases x.gameMode.current <;> rcases x.skills.activeMenuSkill with _ | ms <;>
    (try dsimp only) <;> (try cases ms.mtype) <;> (try dsimp only) <;>
    constructor <;> (try split_ifs) <;> omega

theorem victoryTransition_mono (rng : AttackRng) (x : GameState)
    (hm : 0 ≤ x.knowledgeStreak.multiplier) :
    x.coins ≤ (victoryTransition rng x).coins ∧ x.gems ≤ (victoryTransition rng x).gems
    ∧ (victoryTransition rng x).shinyGems = x.shinyGems := by
  obtain ⟨hc, hg, hs⟩ := victoryTransition_currencies rng x
  obtain ⟨rc, rg⟩ := victoryRewards_nonneg x hm
  exact ⟨by omega, by omega, hs⟩

set_option maxHeartbeats 1600000 in
theorem attackOnCorrect_mono (enemy : Enemy) (rng : AttackRng) (x : GameState) :
    x.coins ≤ (attackOnCorrect enemy rng x).coins
    ∧ x.gems ≤ (attackOnCorrect enemy rng x).gems
    ∧ (attackOnCorrect enemy rng x).shinyGems = x.shinyGems := by
  unfold attackOnCorrect
  dsimp only
  split_ifs
  · exact victoryTransition_mono rng _ (by dsimp only; positivity)
  · exact victoryTransition_mono rng _ (by dsimp only; positivity)
  · exact ⟨le_refl _, le_refl _, rfl⟩
  · exact ⟨le_refl _, le_refl _, rfl⟩

set_option maxHeartbeats 1600000 in
/-- C8: the currency non-negativity invariant — for every state with
non-negative coins, gems and shiny gems, each exposed transition preserves
non-negativity, under the well-formedness facts that hold for all
generated data (non-negative sell prices, reward amounts, chest cost and
random draws, and a non-negative exchange amount). -/
theorem c8_currencies_nonneg :
    (∀ (w : Weapon) (s : GameState), nonnegCur s → nonnegCur (equipWeapon w s))
    ∧ (∀ (a : Armor) (s : GameState), nonnegCur s → nonnegCur (equipArmor a s))
    ∧ (∀ (weaponId : Nat) (s : GameState), nonnegCur s → nonnegCur (upgradeWeapon weaponId s))
    ∧ (∀ (armorId : Nat) (s : GameState), nonnegCur s → nonnegCur (upgradeArmor armorId s))
    ∧ (∀ (weaponId : Nat) (s : GameState),
      (∀ w ∈ s.inventory.weapons, 0 ≤ w.sellPrice) → nonnegCur s →
      nonnegCur (sellWeapon weaponId s))
    ∧ (∀ (armorId : Nat) (s : GameState),
      (∀ a ∈ s.inventory.armor, 0 ≤ a.sellPrice) → nonnegCur s →
      nonnegCur (sellArmor armorId s))
    ∧ (∀ (cost : Int) (rng : ChestRng) (s : GameState),
      0 ≤ cost → 0 ≤ rng.bonusRoll → nonnegCur s → nonnegCur (openChest cost rng s).2)
    ∧ (∀ (cost : Int) (item : Sum Weapon Armor) (s : GameState),
      nonnegCur s → nonnegCur (purchaseMythical cost item s).2)
    ∧ (∀ (relicId : Nat) (s : GameState), nonnegCur s → nonnegCur (purchaseRelic relicId s).2)
    ∧ (∀ (amount : Int) (s : GameState),
      0 ≤ amount → nonnegCur s → nonnegCur (exchangeShinyGems amount s).2)
    ∧ (∀ (now : ℚ) (s : GameState), nonnegCur s → nonnegCur (plantSeed now s).2)
    ∧ (∀ (hours now : ℚ) (s : GameState), nonnegCur s → nonnegCur (buyWater hours now s).2)
    ∧ (∀ (now : ℚ) (skill : MenuSkill) (freshItems : List RelicItem) (s : GameState),
      nonnegCur s → nonnegCur (rollSkill now skill freshItems s).2)
    ∧ (∀ (now : ℚ) (item : Sum Weapon Armor) (s : GameState),
      (∀ r, s.dailyRewards.availableReward = some r → 0 ≤ r.coins ∧ 0 ≤ r.gems) →
      nonnegCur s → nonnegCur (claimDailyReward now item s).2)
    ∧ (∀ (s : GameState), nonnegCur s → nonnegCur (prestige s).2)
    ∧ (∀ (roll : ℚ) (s : GameState), nonnegCur s → nonnegCur (mineGem roll s).2)
    ∧ (∀ (hit : Bool) (category : Option String) (rng : AttackRng) (s : GameState),
      nonnegCur s → nonnegCur (attack hit category rng s)) := by
  refine ⟨?_, ?_, ?_, ?_, ?_, ?_, ?_, ?_, ?_, ?_, ?_, ?_, ?_, ?_, ?_, ?_, ?_⟩
  · intro w s h
    exact h
  · intro a s h
    exact h
  · intro weaponId s h
    obtain ⟨hco, hge, hsh⟩ := h
    unfold upgradeWeapon
    generalize s.inventory.weapons.find? (fun x => x.id == weaponId) = fr
    cases fr with
    | none => exact ⟨hco, hge, hsh⟩
    | some w =>
      dsimp only
      by_cases hc : s.gems < w.upgradeCost
      · rw [if_pos hc]
        exact ⟨hco, hge, hsh⟩
      · rw [if_neg hc]
        try dsimp only
        split_ifs <;>
          exact ⟨hco, show (0 : Int) ≤ s.gems - w.upgradeCost from by omega, hsh⟩
  · intro armorId s h
    obtain ⟨hco, hge, hsh⟩ := h
    unfold upgradeArmor
    generalize s.inventory.armor.find? (fun x => x.id == armorId) = fr
    cases fr with
    | none => exact ⟨hco, hge, hsh⟩
    | some a =>
      dsimp only
      by_cases hc : s.gems < a.upgradeCost
      · rw [if_pos hc]
        exact ⟨hco, hge, hsh⟩
      · rw [if_neg hc]
        try dsimp only
        split_ifs <;>
          exact ⟨hco, show (0 : Int) ≤ s.gems - a.upgradeCost from by omega, hsh⟩
  · intro weaponId s hsp h
    obtain ⟨hco, hge, hsh⟩ := h
    unfold sellWeapon
    generalize hf : s.inventory.weapons.find? (fun x => x.id == weaponId) = fr
    cases fr with
    | none => exact ⟨hco, hge, hsh⟩
    | some w =>
      dsimp only
      split_ifs
      · exact ⟨hco, hge, hsh⟩
      · have hw : 0 ≤ w.sellPrice := hsp w (List.mem_of_find?_eq_some hf)
        exact ⟨show (0 : Int) ≤ s.coins + w.sellPrice from by omega, hge, hsh⟩
  · intro armorId s hsp h
    obtain ⟨hco, hge, hsh⟩ := h
    unfold sellArmor
    generalize hf : s.inventory.armor.find? (fun x => x.id == armorId) = fr
    cases fr with
    | none => exact ⟨hco, hge, hsh⟩
    | some a =>
      dsimp only
      split_ifs
      · exact ⟨hco, hge, hsh⟩
      · have ha : 0 ≤ a.sellPrice := hsp a (List.mem_of_find?_eq_some hf)
        exact ⟨show (0 : Int) ≤ s.coins + a.sellPrice from by omega, hge, hsh⟩
  · intro cost rng s hcost hroll h
    obtain ⟨hco, hge, hsh⟩ := h
    by_cases hcc : s.coins < cost
    · unfold openChest
      rw [if_pos hcc]
      exact ⟨hco, hge, hsh⟩
    · have hb : (0 : Int) ≤ Int.floor (rng.bonusRoll * 10) :=
        Int.le_floor.mpr (by push_cast; exact mul_nonneg hroll (by norm_num))
      have hg : (0 : Int) ≤ Int.floor ((cost : ℚ) / 20)
          * gemMultiplier (selectRarity rng.weights rng.rarityRoll) := by
        apply mul_nonneg
        · apply Int.le_floor.mpr
          push_cast
          exact div_nonneg (by exact_mod_cast hcost) (by norm_num)
        · rcases selectRarity rng.weights rng.rarityRoll <;> norm_num [gemMultiplier]
      unfold openChest
      rw [if_neg hcc]
      dsimp only
      split_ifs <;>
        (try dsimp only) <;>
        refine ⟨?_, ?_, ?_⟩ <;>
        (try simp only [foldl_addChestItem_coins, foldl_addChestItem_gems,
          foldl_addChestItem_shinyGems]) <;>
        omega
  · intro cost item s h
    obtain ⟨hco, hge, hsh⟩ := h
    unfold purchaseMythical
    by_cases hc : s.coins < cost
    · rw [if_pos hc]
      exact ⟨hco, hge, hsh⟩
    · rw [if_neg hc]
      dsimp only
      cases item <;>
        exact ⟨show (0 : Int) ≤ s.coins - cost from by omega, hge, hsh⟩
  · intro relicId s h
    obtain ⟨hco, hge, hsh⟩ := h
    unfold purchaseRelic
    generalize s.yojefMarket.items.find? (fun x => x.id == relicId) = fr
    cases fr with
    | none => exact ⟨hco, hge, hsh⟩
    | some r =>
      dsimp only
      by_cases hc : s.gems < r.cost
      · rw [if_pos hc]
        exact ⟨hco, hge, hsh⟩
      · rw [if_neg hc]
        exact ⟨hco, show (0 : Int) ≤ s.gems - r.cost from by omega, hsh⟩
  · intro amount s hamt h
    obtain ⟨hco, hge, hsh⟩ := h
    unfold exchangeShinyGems
    by_cases hc : s.shinyGems < amount
    · rw [if_pos hc]
      exact ⟨hco, hge, hsh⟩
    · rw [if_neg hc]
      exact ⟨hco, show (0 : Int) ≤ s.gems + amount * 10 from by omega,
        show (0 : Int) ≤ s.shinyGems - amount from by omega⟩
  · intro now s h
    obtain ⟨hco, hge, hsh⟩ := h
    unfold plantSeed
    by_cases hc : s.coins < s.gardenOfGrowth.seedCost ∨ s.gardenOfGrowth.isPlanted = true
    · rw [if_pos hc]
      exact ⟨hco, hge, hsh⟩
    · rw [if_neg hc]
      have hc1 : ¬ s.coins < s.gardenOfGrowth.seedCost := fun hh => hc (Or.inl hh)
      exact ⟨show (0 : Int) ≤ s.coins - s.gardenOfGrowth.seedCost from by omega, hge, hsh⟩
  · intro hours now s h
    obtain ⟨hco, hge, hsh⟩ := h
    unfold buyWater
    by_cases hp : ¬ s.gardenOfGrowth.isPlanted = true
    · rw [if_pos hp]
      exact ⟨hco, hge, hsh⟩
    · rw [if_neg hp]
      dsimp only
      by_cases hc : s.coins < Int.floor ((hours / 24) * (s.gardenOfGrowth.waterCost : ℚ))
      · rw [if_pos hc]
        exact ⟨hco, hge, hsh⟩
      · rw [if_neg hc]
        exact ⟨show (0 : Int)
            ≤ s.coins - Int.floor ((hours / 24) * (s.gardenOfGrowth.waterCost : ℚ)) from
          by omega, hge, hsh⟩
  · intro now skill freshItems s h
    obtain ⟨hco, hge, hsh⟩ := h
    unfold rollSkill
    by_cases hc : s.coins < 100
    · rw [if_pos hc]
      exact ⟨hco, hge, hsh⟩
    · rw [if_neg hc]
      dsimp only
      cases skill.mtype <;>
        exact ⟨show (0 : Int) ≤ s.coins - 100 from by omega, hge, hsh⟩
  · intro now item s hr h
    obtain ⟨hco, hge, hsh⟩ := h
    unfold claimDailyReward
    rcases ha : s.dailyRewards.availableReward with _ | reward
    · exact ⟨hco, hge, hsh⟩
    · try dsimp only
      obtain ⟨hrc, hrg⟩ := hr reward ha
      cases item <;> split_ifs <;>
        exact ⟨show (0 : Int) ≤ s.coins + reward.coins from by omega,
          show (0 : Int) ≤ s.gems + reward.gems from by omega, hsh⟩
  · intro s h
    obtain ⟨hco, hge, hsh⟩ := h
    unfold prestige
    by_cases hc : s.progression.level < 50
    · rw [if_pos hc]
      exact ⟨hco, hge, hsh⟩
    · rw [if_neg hc]
      exact ⟨by norm_num, by norm_num, hsh⟩
  · intro roll s h
    obtain ⟨hco, hge, hsh⟩ := h
    unfold mineGem
    dsimp only
    split_ifs <;>
      exact ⟨hco, show (0 : Int) ≤ s.gems + _ from by omega,
        show (0 : Int) ≤ s.shinyGems + _ from by omega⟩
  · intro hit category rng s h
    unfold attack
    rcases hce : s.currentEnemy with _ | enemy
    · exact h
    · try dsimp only
      by_cases hic : s.inCombat = true
      · rw [if_pos hic]
        obtain ⟨hco, hge, hsh⟩ := h
        cases hit
        · show nonnegCur (durabilityStep (attackOnWrong enemy (attackEntryState false category s)))
          obtain ⟨_, _, _, _, _, _, _, _, _, d10, d11, d12, _⟩ :=
            durabilityStep_preserves (attackOnWrong enemy (attackEntryState false category s))
          obtain ⟨wc, wg, ws⟩ := attackOnWrong_currencies enemy (attackEntryState false category s)
          refine ⟨?_, ?_, ?_⟩
          · rw [d10, wc]; exact hco
          · rw [d11, wg]; exact hge
          · rw [d12, ws]; exact hsh
        · show nonnegCur
            (durabilityStep (attackOnCorrect enemy rng (attackEntryState true category s)))
          obtain ⟨_, _, _, _, _, _, _, _, _, d10, d11, d12, _⟩ :=
            durabilityStep_preserves
              (attackOnCorrect enemy rng (attackEntryState true category s))
          obtain ⟨cc, cg, cs⟩ :=
            attackOnCorrect_mono enemy rng (attackEntryState true category s)
          refine ⟨?_, ?_, ?_⟩
          · rw [d10]; exact le_trans hco cc
          · rw [d11]; exact le_trans hge cg
          · rw [d12, cs]; exact hsh
      · rw [if_neg hic]
        exact h

/-- Witness for C8: the invariant holds on the fresh state and is applied
through a shiny-gem exchange of 0, a prestige attempt, and a wrong-answer
attack against a concrete enemy. -/
theorem c8_currencies_nonneg_witness :
    nonnegCur initialGameState
    ∧ nonnegCur (exchangeShinyGems 0 initialGameState).2
    ∧ nonnegCur (prestige initialGameState).2
    ∧ nonnegCur (attack false (some "math")
        ⟨0, 0, 0, 0, ⟨0, "w", Rarity.common, 1, 1, 1, 1, 1, 1⟩,
          ⟨0, "a", Rarity.common, 1, 1, 1, 1, 1, 1⟩⟩
        { initialGameState with
          currentEnemy := some ⟨"goblin", 30, 12⟩, inCombat := true }) := by
  have h0 : nonnegCur initialGameState := by
    exact ⟨by decide, by decide, by decide⟩
  have h1 : nonnegCur
      ({ initialGameState with
        currentEnemy := some ⟨"goblin", 30, 12⟩, inCombat := true } : GameState) := by
    exact ⟨by decide, by decide, by decide⟩
  refine ⟨h0, ?_, ?_, ?_⟩
  · exact c8_currencies_nonneg.2.2.2.2.2.2.2.2.2.1 0 initialGameState (by decide) h0
  · exact c8_currencies_nonneg.2.2.2.2.2.2.2.2.2.2.2.2.2.2.1 initialGameState h0
  · exact c8_currencies_nonneg.2.2.2.2.2.2.2.2.2.2.2.2.2.2.2.2 false (some "math") _ _ h1

end Hugoland
